import Mathlib

/-!
Shallow embedding of the tinyvg-rs codec (craft-gui/tinyvg-rs) and proofs
about it.  Byte streams are modelled as `List Nat` (each element a byte
value `< 256`), machine integers as `Nat`/`Int` with explicit `% 2^w`
where wrap-around matters, and `f64` design-space values as `ℚ`
(floating-point rounding of `f64` arithmetic is not modelled; all
concrete inputs used in theorems are exactly representable).  Rust
`panic!`/`unreachable!`/arithmetic-overflow aborts are modelled by a
distinguished `panicked` outcome, separate from the typed
`TinyVgParseError` results.
-/

namespace TVG

/-- Mirrors `TinyVgParseError` in `src/lib.rs` (lines 13-19). -/
inductive TinyVgParseError where
  | None
  | InvalidHeader
  | InvalidColorTable
  | InvalidCommand
deriving DecidableEq

/-- Outcome of running a parser on a byte list: success with a value and
the remaining bytes, a typed error, a Rust panic/abort
(`unreachable!`, arithmetic overflow), or exhaustion of the structural
recursion fuel (unreachable for the fuel chosen by the top-level
entry points, since every loop iteration consumes at least one byte). -/
inductive POut (α : Type) where
  | ok : α → List Nat → POut α
  | err : TinyVgParseError → POut α
  | panicked : POut α
  | outOfFuel : POut α
deriving DecidableEq

/-- A parser over a forward byte cursor, mirroring `Cursor<&[u8]>`. -/
def ParseM (α : Type) : Type := List Nat → POut α

instance : Monad ParseM where
  pure a := fun bs => .ok a bs
  bind m f := fun bs =>
    match m bs with
    | .ok a rest => f a rest
    | .err e => .err e
    | .panicked => .panicked
    | .outOfFuel => .outOfFuel

/-- Fail with a typed error (Rust `return Err(e)`). -/
def perr (e : TinyVgParseError) : ParseM α := fun _ => .err e

/-- Lift a partial pure function whose `none` case is an `unreachable!`
panic in the Rust source. -/
def liftPanic : Option α → ParseM α
  | some a => pure a
  | none => fun _ => .panicked

/-- Mirrors `cursor.read_u8().map_err(|_| e)`. -/
def read_u8 (e : TinyVgParseError) : ParseM Nat := fun bs =>
  match bs with
  | [] => .err e
  | b :: rest => .ok b rest

/-- Mirrors `cursor.read_u16::<LittleEndian>().map_err(|_| e)`. -/
def read_u16_le (e : TinyVgParseError) : ParseM Nat := do
  let b0 ← read_u8 e
  let b1 ← read_u8 e
  pure (b0 + 2 ^ 8 * b1)

/-- Mirrors `cursor.read_u32::<LittleEndian>().map_err(|_| e)`. -/
def read_u32_le (e : TinyVgParseError) : ParseM Nat := do
  let b0 ← read_u8 e
  let b1 ← read_u8 e
  let b2 ← read_u8 e
  let b3 ← read_u8 e
  pure (b0 + 2 ^ 8 * b1 + 2 ^ 16 * b2 + 2 ^ 24 * b3)

/-- Two's-complement reinterpretation of a `w`-bit unsigned value. -/
def toSigned (w : Nat) (u : Nat) : Int :=
  if u < 2 ^ (w - 1) then (u : Int) else (u : Int) - 2 ^ w

/-- Mirrors `cursor.read_i8()` (+ `as i64` widening at call sites). -/
def read_i8 (e : TinyVgParseError) : ParseM Int := do
  let u ← read_u8 e
  pure (toSigned 8 u)

/-- Mirrors `cursor.read_i16::<LittleEndian>()`. -/
def read_i16_le (e : TinyVgParseError) : ParseM Int := do
  let u ← read_u16_le e
  pure (toSigned 16 u)

/-- Mirrors `cursor.read_i32::<LittleEndian>()`. -/
def read_i32_le (e : TinyVgParseError) : ParseM Int := do
  let u ← read_u32_le e
  pure (toSigned 32 u)

/-- Mirrors `CoordinateRange` in `src/header.rs` (lines 42-53),
`repr(u8)` discriminants Default = 0, Reduced = 1, Enhanced = 2. -/
inductive CoordinateRange where
  | Default
  | Reduced
  | Enhanced
deriving DecidableEq

/-- Mirrors `CoordinateRange::from_u8`; the `_ => unreachable!` arm is
modelled as `none`. -/
def CoordinateRange.from_u8 : Nat → Option CoordinateRange
  | 0 => some .Default
  | 1 => some .Reduced
  | 2 => some .Enhanced
  | _ => none

/-- The `repr(u8)` discriminant of a `CoordinateRange` (`as u8`). -/
def CoordinateRange.as_u8 : CoordinateRange → Nat
  | .Default => 0
  | .Reduced => 1
  | .Enhanced => 2

/-- Mirrors `read_size` in `src/common.rs` (lines 11-18): an unsigned
size whose width is selected by the coordinate range, errors mapped to
`InvalidHeader`. -/
def read_size (coordinate_range : CoordinateRange) : ParseM Nat :=
  match coordinate_range with
  | .Reduced => read_u8 .InvalidHeader
  | .Default => read_u16_le .InvalidHeader
  | .Enhanced => read_u32_le .InvalidHeader

/-- Loop body of `read_variable_sized_unsigned_number` in
`src/common.rs` (lines 24-38).  `count` counts the continuation bytes
already consumed; each byte contributes its low 7 bits shifted left by
`7 * count` into a `u64` accumulator.  A shift amount of 64 or more
overflows the `u64` shift in Rust (a panic with overflow checks), which
is modelled as `panicked`; for shift amounts below 64 the `u64` shift
discards high bits, hence the `% 2 ^ 64`.  Running out of bytes is
mapped to `InvalidHeader` exactly as in the source. -/
def readVarUIntGo : List Nat → Nat → Nat → POut Nat
  | [], _, _ => .err .InvalidHeader
  | b :: rest, count, result =>
    if 64 ≤ 7 * count then .panicked
    else
      let val : Nat := ((b &&& 0x7F) <<< (7 * count)) % 2 ^ 64
      let result' : Nat := result ||| val
      if b &&& 0x80 = 0 then .ok result' rest
      else readVarUIntGo rest (count + 1) result'

/-- Mirrors `read_variable_sized_unsigned_number` in `src/common.rs`. -/
def read_variable_sized_unsigned_number : ParseM Nat := fun bs =>
  readVarUIntGo bs 0 0

/-- Mirrors the `Unit` design-space scalar of `src/common.rs` (line 8);
the `f64` payload is modelled as `ℚ`. -/
structure Unit where
  val : ℚ
deriving DecidableEq

/-- Mirrors `read_unit` in `src/common.rs` (lines 41-53): a signed
integer of the width selected by the coordinate range, divided by
`1 << scale`; errors mapped to `InvalidCommand`. -/
def read_unit (scale : Nat) (coordinate_range : CoordinateRange) :
    ParseM Unit := do
  let raw : Int ←
    match coordinate_range with
    | .Default => read_i16_le .InvalidCommand
    | .Reduced => read_i8 .InvalidCommand
    | .Enhanced => read_i32_le .InvalidCommand
  pure ⟨(raw : ℚ) / ((1 <<< scale : Nat) : ℚ)⟩

/-- Rounding to the nearest integer, ties away from zero, matching
`f64::round`. -/
def rustRound (q : ℚ) : Int :=
  if 0 ≤ q then ⌊q + 1 / 2⌋ else -⌊-q + 1 / 2⌋

/-- Outcome of a byte writer: the bytes appended to the cursor, a typed
error, or a Rust panic (arithmetic underflow/overflow). -/
inductive WOut where
  | ok : List Nat → WOut
  | err : TinyVgParseError → WOut
  | panicked : WOut
deriving DecidableEq

/-- Sequencing of two writers: concatenate on success, propagate the
first failure (mirrors sequential `?`-propagated writes into one
cursor). -/
def wappend : WOut → WOut → WOut
  | .ok a, .ok b => .ok (a ++ b)
  | .ok _, .err e => .err e
  | .ok _, .panicked => .panicked
  | .err e, _ => .err e
  | .panicked, _ => .panicked

/-- Little-endian byte encoding of the low `n` bytes of `x`. -/
def leBytes : Nat → Nat → List Nat
  | 0, _ => []
  | n + 1, x => (x % 256) :: leBytes n (x / 256)

/-- Little-endian two's-complement encoding of `z` in `n` bytes
(the semantics of `write_i8` / `write_i16` / `write_i32`). -/
def intLEBytes (n : Nat) (z : Int) : List Nat :=
  leBytes n (z.emod (2 ^ (8 * n))).toNat

/-- Mirrors `write_unit` in `src/common.rs` (lines 55-83): scale the
value by `1 << scale`, round to nearest (ties away from zero), fail with
`InvalidCommand` when the result does not fit the signed range of the
selected width, otherwise write it little-endian. -/
def write_unit (scale : Nat) (coordinate_range : CoordinateRange)
    (value : Unit) : WOut :=
  let scaled : Int := rustRound (value.val * ((1 <<< scale : Nat) : ℚ))
  match coordinate_range with
  | .Default =>
      if scaled < -(2 ^ 15) ∨ 2 ^ 15 - 1 < scaled then .err .InvalidCommand
      else .ok (intLEBytes 2 scaled)
  | .Reduced =>
      if scaled < -(2 ^ 7) ∨ 2 ^ 7 - 1 < scaled then .err .InvalidCommand
      else .ok (intLEBytes 1 scaled)
  | .Enhanced =>
      if scaled < -(2 ^ 31) ∨ 2 ^ 31 - 1 < scaled then .err .InvalidCommand
      else .ok (intLEBytes 4 scaled)

/-- Loop body of `write_variable_sized_unsigned_number` in
`src/common.rs` (lines 85-101), written with structural fuel so that it
reduces in the kernel; a `u64` value needs at most 10 iterations and the
entry point passes fuel 64, so the `0` case is unreachable for any
`u64` input. -/
def writeVarUIntGo : Nat → Nat → List Nat
  | 0, _ => []
  | fuel + 1, value =>
    let byte := value &&& 0x7F
    let v' := value >>> 7
    if v' = 0 then [byte]
    else (byte ||| 0x80) :: writeVarUIntGo fuel v'

/-- Mirrors `write_variable_sized_unsigned_number` in `src/common.rs`
(always succeeds; the `Result` in the source only reports `Vec` write
failures, which cannot happen). -/
def write_variable_sized_unsigned_number (value : Nat) : List Nat :=
  writeVarUIntGo 64 value

/-- Mirrors `write_size` in `src/common.rs` (lines 104-114); `value as
u8` / `as u16` truncation is realized by `leBytes` taking each byte
`% 256`. -/
def write_size (range : CoordinateRange) (value : Nat) : List Nat :=
  match range with
  | .Reduced => [value % 256]
  | .Default => leBytes 2 value
  | .Enhanced => leBytes 4 value

/-- Mirrors `ColorEncoding` in `src/header.rs` (lines 6-28),
`repr(u8)` discriminants 0-3. -/
inductive ColorEncoding where
  | Rgba8888
  | Rgb565
  | RgbaF32
  | Custom
deriving DecidableEq

/-- Mirrors `ColorEncoding::from_u8`; the `_ => unreachable!` arm is
modelled as `none`. -/
def ColorEncoding.from_u8 : Nat → Option ColorEncoding
  | 0 => some .Rgba8888
  | 1 => some .Rgb565
  | 2 => some .RgbaF32
  | 3 => some .Custom
  | _ => none

/-- The `repr(u8)` discriminant of a `ColorEncoding` (`as u8`). -/
def ColorEncoding.as_u8 : ColorEncoding → Nat
  | .Rgba8888 => 0
  | .Rgb565 => 1
  | .RgbaF32 => 2
  | .Custom => 3

/-- Mirrors `TinyVgHeader` in `src/header.rs` (lines 66-96); `magic` is
the two raw magic bytes. -/
structure TinyVgHeader where
  magic : List Nat
  version : Nat
  scale : Nat
  color_encoding : ColorEncoding
  coordinate_range : CoordinateRange
  width : Nat
  height : Nat
  color_count : Nat
deriving DecidableEq

/-- Mirrors `TinyVgHeader::parse` in `src/header.rs` (lines 99-141). -/
def TinyVgHeader.parse : ParseM TinyVgHeader := do
  let m0 ← read_u8 .InvalidHeader
  let m1 ← read_u8 .InvalidHeader
  if m0 ≠ 0x72 ∨ m1 ≠ 0x56 then perr .InvalidHeader
  else do
    let version ← read_u8 .InvalidHeader
    let scc ← read_u8 .InvalidHeader
    let scale := scc &&& 0x0F
    let color_encoding_raw := (scc &&& 0b00110000) >>> 4
    let color_encoding ← liftPanic (ColorEncoding.from_u8 color_encoding_raw)
    let coordinate_range_raw := (scc &&& 0b11000000) >>> 6
    let coordinate_range ← liftPanic (CoordinateRange.from_u8 coordinate_range_raw)
    let width ← read_size coordinate_range
    let height ← read_size coordinate_range
    let color_count ← read_variable_sized_unsigned_number
    pure { magic := [m0, m1], version, scale, color_encoding,
           coordinate_range, width, height, color_count }

/-- Mirrors `RgbaF32` in `src/color_table.rs` (line 6); the four `f32`
channels are modelled as `ℚ`. -/
structure RgbaF32 where
  r : ℚ
  g : ℚ
  b : ℚ
  a : ℚ
deriving DecidableEq

/-- Exact rational value of an IEEE-754 binary32 bit pattern (NaN and
infinity, which no claim touches, are mapped to 0). -/
def f32BitsToRat (u : Nat) : ℚ :=
  let sign : Nat := u >>> 31
  let ex : Nat := (u >>> 23) &&& 0xFF
  let man : Nat := u &&& (2 ^ 23 - 1)
  let mag : ℚ :=
    if ex = 0 then (man : ℚ) / 2 ^ 149
    else if ex = 255 then 0
    else ((2 ^ 23 + man : Nat) : ℚ) * 2 ^ ex / 2 ^ 150
  if sign = 1 then -mag else mag

/-- One entry of the color table, dispatching on the header's color
encoding exactly as the loop body of `parse_color_table` in
`src/color_table.rs` (lines 13-44); the `Custom` arm is
`unreachable!` in the source, modelled as a panic. -/
def readColorTableEntry (header : TinyVgHeader) : ParseM RgbaF32 :=
  match header.color_encoding with
  | .Rgba8888 => do
      let r ← read_u8 .InvalidColorTable
      let g ← read_u8 .InvalidColorTable
      let b ← read_u8 .InvalidColorTable
      let a ← read_u8 .InvalidColorTable
      pure ⟨(r : ℚ) / 255, (g : ℚ) / 255, (b : ℚ) / 255, (a : ℚ) / 255⟩
  | .Rgb565 => do
      let color ← read_u16_le .InvalidColorTable
      let red := color &&& 31
      let green := (color >>> 5) &&& 63
      let blue := (color >>> 11) &&& 31
      pure ⟨(red : ℚ) / 31, (green : ℚ) / 63, (blue : ℚ) / 31, 1⟩
  | .RgbaF32 => do
      let r ← read_u32_le .InvalidColorTable
      let g ← read_u32_le .InvalidColorTable
      let b ← read_u32_le .InvalidColorTable
      let a ← read_u32_le .InvalidColorTable
      pure ⟨f32BitsToRat r, f32BitsToRat g, f32BitsToRat b, f32BitsToRat a⟩
  | .Custom => fun _ => .panicked

/-- The `0..header.color_count` loop of `parse_color_table`. -/
def parseColorTableGo (header : TinyVgHeader) : Nat → ParseM (List RgbaF32)
  | 0 => pure []
  | n + 1 => do
      let c ← readColorTableEntry header
      let rest ← parseColorTableGo header n
      pure (c :: rest)

/-- Mirrors `parse_color_table` in `src/color_table.rs` (lines 10-48). -/
def parse_color_table (header : TinyVgHeader) : ParseM (List RgbaF32) :=
  parseColorTableGo header header.color_count

/-- Mirrors `StyleType` in `src/commands.rs` (lines 7-16),
`repr(u8)` discriminants Flat = 0, Linear = 1, Radial = 2. -/
inductive StyleType where
  | Flat
  | Linear
  | Radial
deriving DecidableEq

/-- Mirrors `StyleType::from_u8` in `src/commands.rs` (lines 18-27); the
`_ => unreachable!` arm is modelled as `none`. -/
def StyleType.from_u8 : Nat → Option StyleType
  | 0 => some .Flat
  | 1 => some .Linear
  | 2 => some .Radial
  | _ => none

/-- The `repr(u8)` discriminant of a `StyleType` (`as u8`). -/
def StyleType.as_u8 : StyleType → Nat
  | .Flat => 0
  | .Linear => 1
  | .Radial => 2

/-- Mirrors `Point` in `src/commands.rs` (lines 172-176). -/
structure Point where
  x : Unit
  y : Unit
deriving DecidableEq

/-- Mirrors `FlatColored` in `src/commands.rs` (lines 29-32);
`color_index` is a `u64`. -/
structure FlatColored where
  color_index : Nat
deriving DecidableEq

/-- Mirrors `LinearGradient` in `src/commands.rs` (lines 44-50). -/
structure LinearGradient where
  point_0 : Point
  point_1 : Point
  color_index_0 : Nat
  color_index_1 : Nat
deriving DecidableEq

/-- Mirrors `RadialGradient` in `src/commands.rs` (lines 69-75). -/
structure RadialGradient where
  point_0 : Point
  point_1 : Point
  color_index_0 : Nat
  color_index_1 : Nat
deriving DecidableEq

/-- Mirrors `Style` in `src/commands.rs` (lines 94-99). -/
inductive Style where
  | FlatColor : FlatColored → Style
  | LinearGradient : LinearGradient → Style
  | RadialGradient : RadialGradient → Style
deriving DecidableEq

/-- Mirrors `CommandType` in `src/commands.rs` (lines 112-150),
`repr(u8)` discriminants 0-11. -/
inductive CommandType where
  | EndOfDocument
  | FillPolygon
  | FillRectangles
  | FillPath
  | DrawLines
  | DrawLineLoop
  | DrawLineStrip
  | DrawLinePath
  | OutlineFillPolygon
  | OutlineFillRectangles
  | OutlineFillPath
  | TextHint
deriving DecidableEq

/-- Mirrors `CommandType::from_u8` in `src/commands.rs` (lines 152-170);
the `_ => unreachable!` arm (values 12-63 after the 6-bit mask) is
modelled as `none`. -/
def CommandType.from_u8 : Nat → Option CommandType
  | 0 => some .EndOfDocument
  | 1 => some .FillPolygon
  | 2 => some .FillRectangles
  | 3 => some .FillPath
  | 4 => some .DrawLines
  | 5 => some .DrawLineLoop
  | 6 => some .DrawLineStrip
  | 7 => some .DrawLinePath
  | 8 => some .OutlineFillPolygon
  | 9 => some .OutlineFillRectangles
  | 10 => some .OutlineFillPath
  | 11 => some .TextHint
  | _ => none

/-- The `repr(u8)` discriminant of a `CommandType` (`as u8`). -/
def CommandType.as_u8 : CommandType → Nat
  | .EndOfDocument => 0
  | .FillPolygon => 1
  | .FillRectangles => 2
  | .FillPath => 3
  | .DrawLines => 4
  | .DrawLineLoop => 5
  | .DrawLineStrip => 6
  | .DrawLinePath => 7
  | .OutlineFillPolygon => 8
  | .OutlineFillRectangles => 9
  | .OutlineFillPath => 10
  | .TextHint => 11

/-- Mirrors `Rectangle` in `src/commands.rs` (lines 191-197). -/
structure Rectangle where
  x : Unit
  y : Unit
  width : Unit
  height : Unit
deriving DecidableEq

/-- Mirrors `Line` in `src/commands.rs` (lines 209-215). -/
structure Line where
  start : Point
  «end» : Point
deriving DecidableEq

/-- Mirrors `PathCommandType` in `src/commands.rs` (lines 350-361),
`repr(u8)` discriminants 0-7. -/
inductive PathCommandType where
  | Line
  | HorizontalLine
  | VerticalLine
  | CubicBezier
  | ArcCircle
  | ArcEllipse
  | ClosePath
  | QuadraticBezier
deriving DecidableEq

/-- Mirrors `PathCommandType::from_u8` in `src/commands.rs`
(lines 363-377); the `_ => unreachable!` arm is modelled as `none`
(unreachable here: callers mask the tag to 3 bits first). -/
def PathCommandType.from_u8 : Nat → Option PathCommandType
  | 0 => some .Line
  | 1 => some .HorizontalLine
  | 2 => some .VerticalLine
  | 3 => some .CubicBezier
  | 4 => some .ArcCircle
  | 5 => some .ArcEllipse
  | 6 => some .ClosePath
  | 7 => some .QuadraticBezier
  | _ => none

/-- The `repr(u8)` discriminant of a `PathCommandType` (`as u8`). -/
def PathCommandType.as_u8 : PathCommandType → Nat
  | .Line => 0
  | .HorizontalLine => 1
  | .VerticalLine => 2
  | .CubicBezier => 3
  | .ArcCircle => 4
  | .ArcEllipse => 5
  | .ClosePath => 6
  | .QuadraticBezier => 7

/-- Mirrors `CubicBezier` in `src/commands.rs` (lines 379-384). -/
structure CubicBezier where
  control_point_0 : Point
  control_point_1 : Point
  point_1 : Point
deriving DecidableEq

/-- Mirrors `ArcCircle` in `src/commands.rs` (lines 386-392). -/
structure ArcCircle where
  large_arc : Bool
  sweep : Bool
  radius : Unit
  target : Point
deriving DecidableEq

/-- Mirrors `ArcEllipse` in `src/commands.rs` (lines 394-402). -/
structure ArcEllipse where
  large_arc : Bool
  sweep : Bool
  radius_x : Unit
  radius_y : Unit
  rotation : Unit
  target : Point
deriving DecidableEq

/-- Mirrors `QuadraticBezier` in `src/commands.rs` (lines 404-408). -/
structure QuadraticBezier where
  control_point : Point
  point_1 : Point
deriving DecidableEq

/-- Mirrors `PathCommand` in `src/commands.rs` (lines 410-420); the
second component of each variant is the optional per-primitive stroke
width. -/
inductive PathCommand where
  | Line : Point → Option Unit → PathCommand
  | HorizontalLine : Unit → Option Unit → PathCommand
  | VerticalLine : Unit → Option Unit → PathCommand
  | CubicBezier : CubicBezier → Option Unit → PathCommand
  | ArcCircle : ArcCircle → Option Unit → PathCommand
  | ArcEllipse : ArcEllipse → Option Unit → PathCommand
  | ClosePath : PathCommand
  | QuadraticBezier : QuadraticBezier → Option Unit → PathCommand
deriving DecidableEq

/-- Mirrors `Segment` in `src/commands.rs` (lines 422-426). -/
structure Segment where
  start : Point
  path_commands : List PathCommand
deriving DecidableEq

/-- Mirrors `Path` in `src/commands.rs` (lines 428-431). -/
structure Path where
  segments : List Segment
deriving DecidableEq

/-- Mirrors `FlatColored::read_from_cursor` in `src/commands.rs`
(lines 34-41). -/
def FlatColored.read_from_cursor : ParseM FlatColored := do
  let color_index ← read_variable_sized_unsigned_number
  pure ⟨color_index⟩

/-- Mirrors `Point::read_point` in `src/commands.rs` (lines 179-184). -/
def Point.read_point (header : TinyVgHeader) : ParseM Point := do
  let x ← read_unit header.scale header.coordinate_range
  let y ← read_unit header.scale header.coordinate_range
  pure ⟨x, y⟩

/-- Mirrors `LinearGradient::read_from_cursor` in `src/commands.rs`
(lines 52-67). -/
def LinearGradient.read_from_cursor (header : TinyVgHeader) :
    ParseM LinearGradient := do
  let point_0 ← Point.read_point header
  let point_1 ← Point.read_point header
  let color_index_0 ← read_variable_sized_unsigned_number
  let color_index_1 ← read_variable_sized_unsigned_number
  pure ⟨point_0, point_1, color_index_0, color_index_1⟩

/-- Mirrors `RadialGradient::read_from_cursor` in `src/commands.rs`
(lines 77-92). -/
def RadialGradient.read_from_cursor (header : TinyVgHeader) :
    ParseM RadialGradient := do
  let point_0 ← Point.read_point header
  let point_1 ← Point.read_point header
  let color_index_0 ← read_variable_sized_unsigned_number
  let color_index_1 ← read_variable_sized_unsigned_number
  pure ⟨point_0, point_1, color_index_0, color_index_1⟩

/-- Mirrors `Style::read_cursor_using_style_type` in `src/commands.rs`
(lines 101-109). -/
def Style.read_cursor_using_style_type (header : TinyVgHeader)
    (style_type : StyleType) : ParseM Style :=
  match style_type with
  | .Flat => do
      let f ← FlatColored.read_from_cursor
      pure (Style.FlatColor f)
  | .Linear => do
      let g ← LinearGradient.read_from_cursor header
      pure (Style.LinearGradient g)
  | .Radial => do
      let g ← RadialGradient.read_from_cursor header
      pure (Style.RadialGradient g)

/-- Mirrors `Rectangle::read_rectangle` in `src/commands.rs`
(lines 199-206). -/
def Rectangle.read_rectangle (header : TinyVgHeader) : ParseM Rectangle := do
  let x ← read_unit header.scale header.coordinate_range
  let y ← read_unit header.scale header.coordinate_range
  let width ← read_unit header.scale header.coordinate_range
  let height ← read_unit header.scale header.coordinate_range
  pure ⟨x, y, width, height⟩

/-- Mirrors `Line::read_line` in `src/commands.rs` (lines 217-223). -/
def Line.read_line (header : TinyVgHeader) : ParseM Line := do
  let start ← Point.read_point header
  let e ← Point.read_point header
  pure ⟨start, e⟩

/-- One primitive of the inner per-segment loop of `Path::parse` in
`src/commands.rs` (lines 453-543): tag byte, 3-bit kind, bit 4 stroke
width flag, then kind-specific payload. -/
def readPathCommand (header : TinyVgHeader) : ParseM PathCommand := do
  let command_tag ← read_u8 .InvalidCommand
  let path_command_raw := command_tag &&& 0b00000111
  let path_command ← liftPanic (PathCommandType.from_u8 path_command_raw)
  let line_width : Option Unit ←
    if command_tag &&& 0b00010000 ≠ 0 then do
      let u ← read_unit header.scale header.coordinate_range
      pure (some u)
    else pure none
  match path_command with
  | .Line => do
      let point ← Point.read_point header
      pure (PathCommand.Line point line_width)
  | .HorizontalLine => do
      let pos_x ← read_unit header.scale header.coordinate_range
      pure (PathCommand.HorizontalLine pos_x line_width)
  | .VerticalLine => do
      let pos_y ← read_unit header.scale header.coordinate_range
      pure (PathCommand.VerticalLine pos_y line_width)
  | .CubicBezier => do
      let control_0 ← Point.read_point header
      let control_1 ← Point.read_point header
      let point_1 ← Point.read_point header
      pure (PathCommand.CubicBezier ⟨control_0, control_1, point_1⟩ line_width)
  | .ArcCircle => do
      let flags ← read_u8 .InvalidCommand
      let large_arc := flags &&& 0b00000001 ≠ 0
      let sweep := flags &&& 0b00000010 ≠ 0
      let radius ← read_unit header.scale header.coordinate_range
      let target ← Point.read_point header
      pure (PathCommand.ArcCircle ⟨large_arc, sweep, radius, target⟩ line_width)
  | .ArcEllipse => do
      let flags ← read_u8 .InvalidCommand
      let large_arc := flags &&& 0b00000001 ≠ 0
      let sweep := flags &&& 0b00000010 ≠ 0
      let radius_x ← read_unit header.scale header.coordinate_range
      let radius_y ← read_unit header.scale header.coordinate_range
      let rotation ← read_unit header.scale header.coordinate_range
      let target ← Point.read_point header
      pure (PathCommand.ArcEllipse
        ⟨large_arc, sweep, radius_x, radius_y, rotation, target⟩ line_width)
  | .ClosePath => pure PathCommand.ClosePath
  | .QuadraticBezier => do
      let control ← Point.read_point header
      let point_1 ← Point.read_point header
      pure (PathCommand.QuadraticBezier ⟨control, point_1⟩ line_width)

/-- The `0..commands_count` loop of `Path::parse`. -/
def readPathCommands (header : TinyVgHeader) : Nat → ParseM (List PathCommand)
  | 0 => pure []
  | n + 1 => do
      let c ← readPathCommand header
      let rest ← readPathCommands header n
      pure (c :: rest)

/-- The first loop of `Path::parse` (lines 435-439): read one VarInt
per segment, each stored value offset by one. -/
def readSegmentLengths : Nat → ParseM (List Nat)
  | 0 => pure []
  | n + 1 => do
      let segment_length ← read_variable_sized_unsigned_number
      let rest ← readSegmentLengths n
      pure ((segment_length + 1) :: rest)

/-- The second loop of `Path::parse` (lines 443-546): per segment, a
start point followed by that segment's primitives. -/
def readSegments (header : TinyVgHeader) : List Nat → ParseM (List Segment)
  | [] => pure []
  | c :: cs => do
      let start ← Point.read_point header
      let path_commands ← readPathCommands header c
      let rest ← readSegments header cs
      pure (Segment.mk start path_commands :: rest)

/-- Mirrors `Path::parse` in `src/commands.rs` (lines 434-551): all
segment lengths are read before any segment's content. -/
def Path.parse (header : TinyVgHeader) (segment_count : Nat) :
    ParseM Path := do
  let segment_command_counts ← readSegmentLengths segment_count
  let segments ← readSegments header segment_command_counts
  pure ⟨segments⟩

/-- Mirrors `FillPolygonData` in `src/commands.rs` (lines 225-229). -/
structure FillPolygonData where
  style : Style
  points : List Point
deriving DecidableEq

/-- Mirrors `FillRectanglesData` in `src/commands.rs` (lines 231-235). -/
structure FillRectanglesData where
  style : Style
  rectangles : List Rectangle
deriving DecidableEq

/-- Mirrors `FillPathData` in `src/commands.rs` (lines 237-241). -/
structure FillPathData where
  style : Style
  path : Path
deriving DecidableEq

/-- Mirrors `DrawLinesData` in `src/commands.rs` (lines 243-248). -/
structure DrawLinesData where
  lines : List Line
  line_width : Unit
  line_style : Style
deriving DecidableEq

/-- Mirrors `DrawLineLoopData` in `src/commands.rs` (lines 250-255). -/
structure DrawLineLoopData where
  line_style : Style
  line_width : Unit
  points : List Point
deriving DecidableEq

/-- Mirrors `DrawLineStripData` in `src/commands.rs` (lines 257-262). -/
structure DrawLineStripData where
  style : Style
  line_width : Unit
  points : List Point
deriving DecidableEq

/-- Mirrors `DrawLinePathData` in `src/commands.rs` (lines 264-269). -/
structure DrawLinePathData where
  style : Style
  line_width : Unit
  path : Path
deriving DecidableEq

/-- Mirrors `OutlineFillPolygonData` in `src/commands.rs`
(lines 271-277). -/
structure OutlineFillPolygonData where
  fill_style : Style
  line_style : Style
  line_width : Unit
  points : List Point
deriving DecidableEq

/-- Mirrors `OutlineFillRectanglesData` in `src/commands.rs`
(lines 279-285). -/
structure OutlineFillRectanglesData where
  fill_style : Style
  line_style : Style
  line_width : Unit
  rectangles : List Rectangle
deriving DecidableEq

/-- Mirrors `OutlineFillPathData` in `src/commands.rs`
(lines 287-293). -/
structure OutlineFillPathData where
  path : Path
  fill_style : Style
  line_style : Style
  line_width : Unit
deriving DecidableEq

/-- Mirrors `TextHintData` in `src/commands.rs` (lines 295-310); the
Rust `String` is modelled as its UTF-8 byte sequence. -/
structure TextHintData where
  center : Point
  rotation : Unit
  height : Unit
  text : List Nat
  glyph_length : Nat
  glyph_offset : List (Unit × Unit)
deriving DecidableEq

/-- Mirrors `DrawCommand` in `src/commands.rs` (lines 312-348). -/
inductive DrawCommand where
  | FillPolygon : FillPolygonData → DrawCommand
  | FillRectangles : FillRectanglesData → DrawCommand
  | FillPath : FillPathData → DrawCommand
  | DrawLines : DrawLinesData → DrawCommand
  | DrawLineLoop : DrawLineLoopData → DrawCommand
  | DrawLineStrip : DrawLineStripData → DrawCommand
  | DrawLinePath : DrawLinePathData → DrawCommand
  | OutlineFillPolygon : OutlineFillPolygonData → DrawCommand
  | OutlineFillRectangles : OutlineFillRectanglesData → DrawCommand
  | OutlineFillPath : OutlineFillPathData → DrawCommand
  | TextHint : TextHintData → DrawCommand
deriving DecidableEq

/-- The `0..point_count` read loops of `parse_draw_commands`. -/
def readPoints (header : TinyVgHeader) : Nat → ParseM (List Point)
  | 0 => pure []
  | n + 1 => do
      let p ← Point.read_point header
      let rest ← readPoints header n
      pure (p :: rest)

/-- The inline rectangle read loop of the `FillRectangles` arm of
`parse_draw_commands` (lines 607-620): four units per rectangle, read
in x, y, width, height order (identical to
`Rectangle::read_rectangle`). -/
def readRectangles (header : TinyVgHeader) : Nat → ParseM (List Rectangle)
  | 0 => pure []
  | n + 1 => do
      let r ← Rectangle.read_rectangle header
      let rest ← readRectangles header n
      pure (r :: rest)

/-- The `0..line_count` read loop of the `DrawLines` arm. -/
def readLines (header : TinyVgHeader) : Nat → ParseM (List Line)
  | 0 => pure []
  | n + 1 => do
      let l ← Line.read_line header
      let rest ← readLines header n
      pure (l :: rest)

/-- Mirrors `cursor.read_exact` into a buffer of length `n`
(the TextHint text bytes). -/
def readExact (e : TinyVgParseError) : Nat → ParseM (List Nat)
  | 0 => pure []
  | n + 1 => do
      let b ← read_u8 e
      let rest ← readExact e n
      pure (b :: rest)

/-- UTF-8 validity of a byte sequence (RFC 3629), the check performed
by `String::from_utf8` in the `TextHint` arm. -/
def validUtf8 : List Nat → Bool
  | [] => true
  | b0 :: rest =>
    if b0 < 0x80 then validUtf8 rest
    else if b0 < 0xC2 then false
    else if b0 < 0xE0 then
      match rest with
      | b1 :: r => 0x80 ≤ b1 && b1 < 0xC0 && validUtf8 r
      | _ => false
    else if b0 < 0xF0 then
      match rest with
      | b1 :: b2 :: r =>
        let lo1 := if b0 = 0xE0 then 0xA0 else 0x80
        let hi1 := if b0 = 0xED then 0xA0 else 0xC0
        lo1 ≤ b1 && b1 < hi1 && (0x80 ≤ b2 && b2 < 0xC0) && validUtf8 r
      | _ => false
    else if b0 < 0xF5 then
      match rest with
      | b1 :: b2 :: b3 :: r =>
        let lo1 := if b0 = 0xF0 then 0x90 else 0x80
        let hi1 := if b0 = 0xF4 then 0x90 else 0xC0
        lo1 ≤ b1 && b1 < hi1 && (0x80 ≤ b2 && b2 < 0xC0) &&
          (0x80 ≤ b3 && b3 < 0xC0) && validUtf8 r
      | _ => false
    else false

/-- The `0..glyph_length` read loop of the `TextHint` arm. -/
def readGlyphOffsets (header : TinyVgHeader) :
    Nat → ParseM (List (Unit × Unit))
  | 0 => pure []
  | n + 1 => do
      let start_offset ← read_unit header.scale header.coordinate_range
      let end_offset ← read_unit header.scale header.coordinate_range
      let rest ← readGlyphOffsets header n
      pure ((start_offset, end_offset) :: rest)

/-- The loop of `parse_draw_commands` in `src/commands.rs`
(lines 554-877), with structural fuel (each iteration consumes at least
the tag byte, so the fuel chosen by `parse_draw_commands` never runs
out).  The tag byte's low 6 bits select the command, the top 2 bits the
primary style kind.  Note the faithful port of the secondary-style
handling of the three OutlineFill commands: the byte is masked with
`0b11000000` but not shifted, exactly as in the source (lines 742, 774,
807). -/
def parseDrawCommandsGo (header : TinyVgHeader) :
    Nat → List DrawCommand → ParseM (List DrawCommand)
  | 0, _ => fun _ => .outOfFuel
  | fuel + 1, draw_commands => do
    let encoded_command ← read_u8 .InvalidCommand
    let command_index := encoded_command &&& 0b00111111
    let prim_style_kind := (encoded_command &&& 0b11000000) >>> 6
    let command ← liftPanic (CommandType.from_u8 command_index)
    match command with
    | .EndOfDocument => pure draw_commands
    | _ => do
      let style_type ← liftPanic (StyleType.from_u8 prim_style_kind)
      match command with
      | .EndOfDocument => fun _ => .panicked
      | .FillPolygon => do
          let point_count ← read_variable_sized_unsigned_number
          let style ← Style.read_cursor_using_style_type header style_type
          let points ← readPoints header (point_count + 1)
          parseDrawCommandsGo header fuel
            (draw_commands ++ [DrawCommand.FillPolygon ⟨style, points⟩])
      | .FillRectangles => do
          let rectangle_count ← read_variable_sized_unsigned_number
          let style ← Style.read_cursor_using_style_type header style_type
          let rectangles ← readRectangles header (rectangle_count + 1)
          parseDrawCommandsGo header fuel
            (draw_commands ++ [DrawCommand.FillRectangles ⟨style, rectangles⟩])
      | .FillPath => do
          let segment_count ← read_variable_sized_unsigned_number
          let style ← Style.read_cursor_using_style_type header style_type
          let path ← Path.parse header (segment_count + 1)
          parseDrawCommandsGo header fuel
            (draw_commands ++ [DrawCommand.FillPath ⟨style, path⟩])
      | .DrawLines => do
          let line_count ← read_variable_sized_unsigned_number
          let line_style ← Style.read_cursor_using_style_type header style_type
          let line_width ← read_unit header.scale header.coordinate_range
          let lines ← readLines header (line_count + 1)
          parseDrawCommandsGo header fuel
            (draw_commands ++ [DrawCommand.DrawLines ⟨lines, line_width, line_style⟩])
      | .DrawLineLoop => do
          let point_count ← read_variable_sized_unsigned_number
          let line_style ← Style.read_cursor_using_style_type header style_type
          let line_width ← read_unit header.scale header.coordinate_range
          let points ← readPoints header (point_count + 1)
          parseDrawCommandsGo header fuel
            (draw_commands ++ [DrawCommand.DrawLineLoop ⟨line_style, line_width, points⟩])
      | .DrawLineStrip => do
          let point_count ← read_variable_sized_unsigned_number
          let style ← Style.read_cursor_using_style_type header style_type
          let line_width ← read_unit header.scale header.coordinate_range
          let points ← readPoints header (point_count + 1)
          parseDrawCommandsGo header fuel
            (draw_commands ++ [DrawCommand.DrawLineStrip ⟨style, line_width, points⟩])
      | .DrawLinePath => do
          let segment_count ← read_variable_sized_unsigned_number
          let style ← Style.read_cursor_using_style_type header style_type
          let line_width ← read_unit header.scale header.coordinate_range
          let path ← Path.parse header (segment_count + 1)
          parseDrawCommandsGo header fuel
            (draw_commands ++ [DrawCommand.DrawLinePath ⟨style, line_width, path⟩])
      | .OutlineFillPolygon => do
          let point_count_sec_style_kind ← read_u8 .InvalidCommand
          let point_count := (point_count_sec_style_kind &&& 0b00111111) + 1
          let sec_style_kind := point_count_sec_style_kind &&& 0b11000000
          let fill_style ← Style.read_cursor_using_style_type header style_type
          let sec_style_type ← liftPanic (StyleType.from_u8 sec_style_kind)
          let line_style ← Style.read_cursor_using_style_type header sec_style_type
          let line_width ← read_unit header.scale header.coordinate_range
          let points ← readPoints header point_count
          parseDrawCommandsGo header fuel
            (draw_commands ++
              [DrawCommand.OutlineFillPolygon ⟨fill_style, line_style, line_width, points⟩])
      | .OutlineFillRectangles => do
          let rect_count_sec_style_kind ← read_u8 .InvalidCommand
          let rect_count := (rect_count_sec_style_kind &&& 0b00111111) + 1
          let sec_style_kind := rect_count_sec_style_kind &&& 0b11000000
          let fill_style ← Style.read_cursor_using_style_type header style_type
          let sec_style_type ← liftPanic (StyleType.from_u8 sec_style_kind)
          let line_style ← Style.read_cursor_using_style_type header sec_style_type
          let line_width ← read_unit header.scale header.coordinate_range
          let rectangles ← readRectangles header rect_count
          parseDrawCommandsGo header fuel
            (draw_commands ++
              [DrawCommand.OutlineFillRectangles ⟨fill_style, line_style, line_width, rectangles⟩])
      | .OutlineFillPath => do
          let segment_count_and_sec_style_kind ← read_u8 .InvalidCommand
          let segment_count := (segment_count_and_sec_style_kind &&& 0b00111111) + 1
          let sec_style_kind := segment_count_and_sec_style_kind &&& 0b11000000
          let sec_style_type ← liftPanic (StyleType.from_u8 sec_style_kind)
          let fill_style ← Style.read_cursor_using_style_type header style_type
          let line_style ← Style.read_cursor_using_style_type header sec_style_type
          let line_width ← read_unit header.scale header.coordinate_range
          let path ← Path.parse header segment_count
          parseDrawCommandsGo header fuel
            (draw_commands ++
              [DrawCommand.OutlineFillPath ⟨path, fill_style, line_style, line_width⟩])
      | .TextHint => do
          let center ← Point.read_point header
          let rotation ← read_unit header.scale header.coordinate_range
          let height ← read_unit header.scale header.coordinate_range
          let text_length ← read_variable_sized_unsigned_number
          let text_buffer ← readExact .InvalidCommand text_length
          if validUtf8 text_buffer = false then perr .InvalidCommand
          else do
            let glyph_length ← read_variable_sized_unsigned_number
            let glyph_offset ← readGlyphOffsets header glyph_length
            parseDrawCommandsGo header fuel
              (draw_commands ++
                [DrawCommand.TextHint
                  ⟨center, rotation, height, text_buffer, glyph_length, glyph_offset⟩])

/-- Mirrors `parse_draw_commands` in `src/commands.rs` (lines 554-877);
the fuel `length + 1` always suffices because every loop iteration
consumes at least one byte. -/
def parse_draw_commands (header : TinyVgHeader) : ParseM (List DrawCommand) :=
  fun bs => parseDrawCommandsGo header (bs.length + 1) [] bs

/-- Mirrors `TinyVg` in `src/lib.rs` (lines 21-26). -/
structure TinyVg where
  header : TinyVgHeader
  color_table : List RgbaF32
  draw_commands : List DrawCommand
deriving DecidableEq

/-- Mirrors `TinyVg::from_bytes` in `src/lib.rs` (lines 30-42):
header, then color table, then command stream, over one forward
cursor. -/
def TinyVg.from_bytes (data : List Nat) : POut TinyVg :=
  (do
    let header ← TinyVgHeader.parse
    let color_table ← parse_color_table header
    let draw_commands ← parse_draw_commands header
    pure (TinyVg.mk header color_table draw_commands)) data

/-- Modelled from the spec: `StyleType::from_style` is called by
`write_draw_commands` in `src/svg_to_tvg/svg_to_tvg.rs` but its `impl`
is not among the source files; per section 4.5 it maps a `Style` value
to the 2-bit style-kind discriminant that selects that variant
(Flat = 0, Linear = 1, Radial = 2, the `StyleType` discriminants of
`src/commands.rs`). -/
def StyleType.from_style : Style → StyleType
  | .FlatColor _ => .Flat
  | .LinearGradient _ => .Linear
  | .RadialGradient _ => .Radial

/-- Mirrors `write_command_and_primary_style` in
`src/svg_to_tvg/svg_to_tvg.rs` (lines 373-393): one combined tag byte,
style kind in bits 6-7, command index in bits 0-5. -/
def write_command_and_primary_style (command : CommandType)
    (style_type : StyleType) : WOut :=
  let command_u8 := command.as_u8
  let style_u8 := style_type.as_u8
  if 0b00111111 < command_u8 then .err .InvalidCommand
  else .ok [(style_u8 <<< 6) ||| (command_u8 &&& 0b00111111)]

/-- Mirrors `write_point` in `src/common.rs` (lines 116-120). -/
def write_point (point : Point) (header : TinyVgHeader) : WOut :=
  wappend (write_unit header.scale header.coordinate_range point.x)
    (write_unit header.scale header.coordinate_range point.y)

/-- Mirrors `write_style` in `src/svg_to_tvg/svg_to_tvg.rs`
(lines 263-289). -/
def write_style (header : TinyVgHeader) (style : Style) : WOut :=
  match style with
  | .FlatColor flat_colored =>
      .ok (write_variable_sized_unsigned_number flat_colored.color_index)
  | .LinearGradient g =>
      wappend (write_unit header.scale header.coordinate_range g.point_0.x)
        (wappend (write_unit header.scale header.coordinate_range g.point_0.y)
          (wappend (write_unit header.scale header.coordinate_range g.point_1.x)
            (wappend (write_unit header.scale header.coordinate_range g.point_1.y)
              (.ok (write_variable_sized_unsigned_number g.color_index_0 ++
                write_variable_sized_unsigned_number g.color_index_1)))))
  | .RadialGradient g =>
      wappend (write_unit header.scale header.coordinate_range g.point_0.x)
        (wappend (write_unit header.scale header.coordinate_range g.point_0.y)
          (wappend (write_unit header.scale header.coordinate_range g.point_1.x)
            (wappend (write_unit header.scale header.coordinate_range g.point_1.y)
              (.ok (write_variable_sized_unsigned_number g.color_index_0 ++
                write_variable_sized_unsigned_number g.color_index_1)))))

/-- The stroke-width flag and base tag of one path primitive, as
computed by the first `match` of the inner loop of `write_path`
(lines 306-315). -/
def pathCommandTagInfo : PathCommand → Nat × Option Unit
  | .Line _ lw => (PathCommandType.Line.as_u8, lw)
  | .HorizontalLine _ lw => (PathCommandType.HorizontalLine.as_u8, lw)
  | .VerticalLine _ lw => (PathCommandType.VerticalLine.as_u8, lw)
  | .CubicBezier _ lw => (PathCommandType.CubicBezier.as_u8, lw)
  | .ArcCircle _ lw => (PathCommandType.ArcCircle.as_u8, lw)
  | .ArcEllipse _ lw => (PathCommandType.ArcEllipse.as_u8, lw)
  | .QuadraticBezier _ lw => (PathCommandType.QuadraticBezier.as_u8, lw)
  | .ClosePath => (PathCommandType.ClosePath.as_u8, none)

/-- The kind-specific payload written for one path primitive by the
second `match` of the inner loop of `write_path` (lines 327-365). -/
def writePathCommandPayload (header : TinyVgHeader) : PathCommand → WOut
  | .Line p _ => write_point p header
  | .HorizontalLine u _ => write_unit header.scale header.coordinate_range u
  | .VerticalLine u _ => write_unit header.scale header.coordinate_range u
  | .CubicBezier c _ =>
      wappend (write_point c.control_point_0 header)
        (wappend (write_point c.control_point_1 header)
          (write_point c.point_1 header))
  | .ArcCircle a _ =>
      let flags := (if a.large_arc then 0b01 else 0) |||
        (if a.sweep then 0b10 else 0)
      wappend (.ok [flags])
        (wappend (write_unit header.scale header.coordinate_range a.radius)
          (write_point a.target header))
  | .ArcEllipse a _ =>
      let flags := (if a.large_arc then 0b01 else 0) |||
        (if a.sweep then 0b10 else 0)
      wappend (.ok [flags])
        (wappend (write_unit header.scale header.coordinate_range a.radius_x)
          (wappend (write_unit header.scale header.coordinate_range a.radius_y)
            (wappend (write_unit header.scale header.coordinate_range a.rotation)
              (write_point a.target header))))
  | .QuadraticBezier q _ =>
      wappend (write_point q.control_point header)
        (write_point q.point_1 header)
  | .ClosePath => .ok []

/-- One full path primitive write: tag byte (3-bit kind, bit 4 set when
a stroke width is present), optional stroke width, then the payload. -/
def writePathCommand (header : TinyVgHeader) (cmd : PathCommand) : WOut :=
  let info := pathCommandTagInfo cmd
  let tag := (info.1 &&& 0b00000111) |||
    (if info.2.isSome then 0b00010000 else 0)
  wappend (.ok [tag])
    (wappend
      (match info.2 with
       | some u => write_unit header.scale header.coordinate_range u
       | none => .ok [])
      (writePathCommandPayload header cmd))

/-- The per-primitive loop of `write_path`. -/
def writePathCommandList (header : TinyVgHeader) : List PathCommand → WOut
  | [] => .ok []
  | c :: cs => wappend (writePathCommand header c) (writePathCommandList header cs)

/-- The first loop of `write_path` (lines 292-298): one VarInt per
segment holding `primitive count - 1`, erroring on an empty segment. -/
def writeSegmentLengths : List Segment → WOut
  | [] => .ok []
  | s :: ss =>
      if s.path_commands.length = 0 then .err .InvalidCommand
      else wappend
        (.ok (write_variable_sized_unsigned_number (s.path_commands.length - 1)))
        (writeSegmentLengths ss)

/-- The second loop of `write_path` (lines 300-367): start point then
the primitives of each segment. -/
def writeSegmentContents (header : TinyVgHeader) : List Segment → WOut
  | [] => .ok []
  | s :: ss =>
      wappend (write_unit header.scale header.coordinate_range s.start.x)
        (wappend (write_unit header.scale header.coordinate_range s.start.y)
          (wappend (writePathCommandList header s.path_commands)
            (writeSegmentContents header ss)))

/-- Mirrors `write_path` in `src/svg_to_tvg/svg_to_tvg.rs`
(lines 291-370): all segment lengths first, then all segment
contents. -/
def write_path (path : Path) (header : TinyVgHeader) : WOut :=
  wappend (writeSegmentLengths path.segments)
    (writeSegmentContents header path.segments)

/-- One iteration of the `write_draw_commands` loop in
`src/svg_to_tvg/svg_to_tvg.rs` (lines 208-247).  Only `FillPath`,
`DrawLinePath` and `OutlineFillPath` are written; the other eight match
arms are empty in the source and append no bytes.  The source computes
`segments.len() as u64 - 1` (resp. `len() - 1` on `usize`), whose
underflow on an empty segment list is a Rust arithmetic-overflow abort,
modelled as `panicked`. -/
def write_draw_command (header : TinyVgHeader) : DrawCommand → WOut
  | .FillPolygon _ => .ok []
  | .FillRectangles _ => .ok []
  | .FillPath data =>
      wappend
        (write_command_and_primary_style .FillPath
          (StyleType.from_style data.style))
        (wappend
          (if data.path.segments.length = 0 then .panicked
           else .ok (write_variable_sized_unsigned_number
             (data.path.segments.length - 1)))
          (wappend (write_style header data.style)
            (write_path data.path header)))
  | .DrawLines _ => .ok []
  | .DrawLineLoop _ => .ok []
  | .DrawLineStrip _ => .ok []
  | .DrawLinePath data =>
      wappend
        (write_command_and_primary_style .DrawLinePath
          (StyleType.from_style data.style))
        (wappend
          (if data.path.segments.length = 0 then .panicked
           else .ok (write_variable_sized_unsigned_number
             (data.path.segments.length - 1)))
          (wappend (write_style header data.style)
            (wappend
              (write_unit header.scale header.coordinate_range data.line_width)
              (write_path data.path header))))
  | .OutlineFillPolygon _ => .ok []
  | .OutlineFillRectangles _ => .ok []
  | .OutlineFillPath data =>
      wappend
        (write_command_and_primary_style .OutlineFillPath
          (StyleType.from_style data.fill_style))
        (if data.path.segments.length = 0 then .panicked
         else
          let segment_count := data.path.segments.length - 1
          let line_style_type := StyleType.from_style data.line_style
          let segment_and_style :=
            (line_style_type.as_u8 <<< 6) ||| (segment_count % 256)
          wappend (.ok [segment_and_style])
            (wappend (write_style header data.fill_style)
              (wappend (write_style header data.line_style)
                (wappend
                  (write_unit header.scale header.coordinate_range
                    data.line_width)
                  (write_path data.path header)))))
  | .TextHint _ => .ok []

/-- Mirrors `write_draw_commands` in `src/svg_to_tvg/svg_to_tvg.rs`
(lines 206-251): the `for` loop over the model's command list, in
order. -/
def write_draw_commands (header : TinyVgHeader) : List DrawCommand → WOut
  | [] => .ok []
  | c :: rest =>
      wappend (write_draw_command header c) (write_draw_commands header rest)

/-- Mirrors `write_end` in `src/svg_to_tvg/svg_to_tvg.rs`
(lines 253-261): the single `0x00` terminator byte. -/
def write_end : WOut := .ok [0]

/-- Mirrors `write_header` in `src/svg_to_tvg/svg_to_tvg.rs`
(lines 172-185): magic, version, packed scale/color-encoding/
coordinate-range byte, width, height, color count. -/
def write_header (header : TinyVgHeader) : WOut :=
  let scc := (header.scale &&& 0x0F) ||| (header.color_encoding.as_u8 <<< 4) |||
    (header.coordinate_range.as_u8 <<< 6)
  .ok (header.magic ++ [header.version] ++ [scc] ++
    write_size header.coordinate_range header.width ++
    write_size header.coordinate_range header.height ++
    write_variable_sized_unsigned_number header.color_count)

/-- Nearest IEEE-754 binary32 bit pattern for a rational (round to
nearest, ties to even; subnormals flushed to zero and overflow clamped
to the infinity pattern - no claim evaluates this function, it only
completes `write_color_table`). -/
def ratToF32Bits (q : ℚ) : Nat :=
  if q = 0 then 0
  else
    let s : Nat := if q < 0 then 1 else 0
    let a : ℚ := |q|
    let e : Int := Int.log 2 a
    if e < -126 then s <<< 31
    else if 127 < e then (s <<< 31) ||| 0x7F800000
    else
      let m0 : ℚ := a * (2 : ℚ) ^ (23 - e)
      let n : Int := ⌊m0⌋
      let frac : ℚ := m0 - (n : ℚ)
      let m : Int :=
        if frac > 1 / 2 then n + 1
        else if frac < 1 / 2 then n
        else if n % 2 = 0 then n else n + 1
      let m' : Nat := m.toNat
      if m' = 2 ^ 24 then
        if e + 1 > 127 then (s <<< 31) ||| 0x7F800000
        else (s <<< 31) ||| (((e + 1 + 127).toNat) <<< 23)
      else (s <<< 31) ||| (((e + 127).toNat) <<< 23) ||| (m' - 2 ^ 23)

/-- Mirrors `write_color_table` in `src/svg_to_tvg/svg_to_tvg.rs`
(lines 187-204): only the `RgbaF32` encoding is writable; each color is
four little-endian `f32` values. -/
def write_color_table (header : TinyVgHeader) (colors : List RgbaF32) : WOut :=
  if header.color_encoding ≠ ColorEncoding.RgbaF32 then .err .InvalidColorTable
  else .ok (colors.flatMap fun c =>
    leBytes 4 (ratToF32Bits c.r) ++ leBytes 4 (ratToF32Bits c.g) ++
    leBytes 4 (ratToF32Bits c.b) ++ leBytes 4 (ratToF32Bits c.a))

/-- The document-level encode composition used by `svg_to_tvg`
(`src/svg_to_tvg/svg_to_tvg.rs` lines 164-167): header, color table,
draw commands, terminator. -/
def encodeTinyVg (t : TinyVg) : WOut :=
  wappend (write_header t.header)
    (wappend (write_color_table t.header t.color_table)
      (wappend (write_draw_commands t.header t.draw_commands) write_end))

/-- The signed wire width, in bits, selected by a coordinate range
(`Default` = 16, `Reduced` = 8, `Enhanced` = 32), used to state
range-check properties of `write_unit`. -/
def unitBits : CoordinateRange → Nat
  | .Default => 16
  | .Reduced => 8
  | .Enhanced => 32

/-- The color-table indices referenced by a `Style` value. -/
def Style.color_indices : Style → List Nat
  | .FlatColor f => [f.color_index]
  | .LinearGradient g => [g.color_index_0, g.color_index_1]
  | .RadialGradient g => [g.color_index_0, g.color_index_1]

/-- All styles carried by a draw command. -/
def DrawCommand.styles : DrawCommand → List Style
  | .FillPolygon d => [d.style]
  | .FillRectangles d => [d.style]
  | .FillPath d => [d.style]
  | .DrawLines d => [d.line_style]
  | .DrawLineLoop d => [d.line_style]
  | .DrawLineStrip d => [d.style]
  | .DrawLinePath d => [d.style]
  | .OutlineFillPolygon d => [d.fill_style, d.line_style]
  | .OutlineFillRectangles d => [d.fill_style, d.line_style]
  | .OutlineFillPath d => [d.fill_style, d.line_style]
  | .TextHint _ => []

/-- Whether every color-table index carried by a style of the document
is strictly below the header's color count (the palette-index invariant
of the specification's data model). -/
def colorIndicesInBounds (t : TinyVg) : Bool :=
  (t.draw_commands.flatMap fun c =>
    (DrawCommand.styles c).flatMap Style.color_indices).all
    fun i => decide (i < t.header.color_count)

/-- A header with scale 0, RgbaF32 palette encoding, default (16-bit)
coordinate range, 1 x 1 size and an empty palette - the header used by
the concrete example documents below. -/
def exampleHeader : TinyVgHeader :=
  { magic := [0x72, 0x56], version := 1, scale := 0,
    color_encoding := .RgbaF32, coordinate_range := .Default,
    width := 1, height := 1, color_count := 0 }

/-- Shorthand for a point with integer design-space coordinates. -/
def mkPt (a b : ℚ) : Point := ⟨⟨a⟩, ⟨b⟩⟩

/-- An `OutlineFillPath` command whose fill style is flat and whose
line style is a linear gradient, over a one-segment, one-primitive
path. -/
def gradientOutlineData : OutlineFillPathData :=
  { path := ⟨[⟨mkPt 0 0, [PathCommand.Line (mkPt 1 1) none]⟩]⟩,
    fill_style := .FlatColor ⟨0⟩,
    line_style := .LinearGradient ⟨mkPt 0 0, mkPt 1 1, 0, 0⟩,
    line_width := ⟨1⟩ }

/-- A document holding exactly the command `gradientOutlineData`. -/
def gradientOutlineDoc : TinyVg :=
  { header := exampleHeader, color_table := [],
    draw_commands := [DrawCommand.OutlineFillPath gradientOutlineData] }

/-- A path segment containing at least one primitive of every
`PathCommand` kind (one of them with a per-primitive stroke width). -/
def allPrimsSegment : Segment :=
  ⟨mkPt 0 0,
   [PathCommand.Line (mkPt 1 1) (some ⟨1⟩),
    PathCommand.HorizontalLine ⟨2⟩ none,
    PathCommand.VerticalLine ⟨3⟩ none,
    PathCommand.CubicBezier ⟨mkPt 1 0, mkPt 0 1, mkPt 2 2⟩ none,
    PathCommand.ArcCircle ⟨true, false, ⟨1⟩, mkPt 3 1⟩ none,
    PathCommand.ArcEllipse ⟨false, true, ⟨2⟩, ⟨1⟩, ⟨0⟩, mkPt 4 1⟩ none,
    PathCommand.ClosePath,
    PathCommand.QuadraticBezier ⟨mkPt 1 2, mkPt 0 0⟩ none]⟩

/-- A document spanning OutlineFillPath, FillPath and DrawLinePath
commands, each of whose paths contains every `PathCommand` kind, with
both gradient style variants used (the OutlineFillPath carries a
linear-gradient fill and a radial-gradient line style). -/
def fullFamilyDoc : TinyVg :=
  { header := exampleHeader, color_table := [],
    draw_commands :=
      [DrawCommand.OutlineFillPath
        { path := ⟨[allPrimsSegment]⟩,
          fill_style := .LinearGradient ⟨mkPt 0 0, mkPt 1 1, 0, 0⟩,
          line_style := .RadialGradient ⟨mkPt 0 0, mkPt 1 1, 0, 0⟩,
          line_width := ⟨1⟩ },
       DrawCommand.FillPath
        { style := .LinearGradient ⟨mkPt 0 0, mkPt 1 1, 0, 0⟩,
          path := ⟨[allPrimsSegment]⟩ },
       DrawCommand.DrawLinePath
        { style := .RadialGradient ⟨mkPt 0 0, mkPt 1 1, 0, 0⟩,
          line_width := ⟨1⟩,
          path := ⟨[allPrimsSegment]⟩ }] }

end TVG

namespace TVG

theorem and_two_pow_eq_zero_of_lt {a i : Nat} (h : a < 2 ^ i) : a &&& 2 ^ i = 0 := by
  apply Nat.eq_of_testBit_eq
  intro j
  rcases eq_or_ne j i with rfl | hne
  · simp [Nat.testBit_and, Nat.testBit_lt_two_pow h]
  · simp [Nat.testBit_and, Nat.testBit_two_pow, Ne.symm hne]

theorem or_mul_two_pow_eq_add {a b k : Nat} (h : a < 2 ^ k) :
    a ||| b * 2 ^ k = a + b * 2 ^ k := by
  rw [Nat.or_comm, Nat.mul_comm]
  rw [← Nat.mul_add_lt_is_or h b]
  exact Nat.add_comm _ _

theorem varUIntGo_roundtrip :
    ∀ (fuel v count result : Nat) (rest : List Nat),
    0 < fuel → v < 2 ^ (7 * fuel) → 7 * count < 64 → result < 2 ^ (7 * count) →
    v * 2 ^ (7 * count) + result < 2 ^ 64 →
    readVarUIntGo (writeVarUIntGo fuel v ++ rest) count result =
      POut.ok (result + v * 2 ^ (7 * count)) rest := by
  intro fuel
  induction fuel with
  | zero => intro v count result rest h; omega
  | succ f ih =>
    intro v count result rest _ hv hcount hres hbound
    have h127 : ∀ x : Nat, x &&& 127 = x % 128 := by
      intro x
      have : (127 : Nat) = 2 ^ 7 - 1 := by norm_num
      rw [this, Nat.and_pow_two_sub_one_eq_mod]
    by_cases hsmall : v >>> 7 = 0
    · have hvlt : v < 128 := by
        rw [Nat.shiftRight_eq_div_pow] at hsmall
        have := (Nat.div_eq_zero_iff (by norm_num : 0 < 2 ^ 7)).mp hsmall
        simpa using this
      have hbyte : v &&& 127 = v := by
        rw [h127, Nat.mod_eq_of_lt hvlt]
      rw [writeVarUIntGo]
      simp only [hsmall, if_pos rfl]
      show readVarUIntGo ((v &&& 127) :: rest) count result = _
      rw [readVarUIntGo]
      rw [if_neg (by omega)]
      have hval : ((v &&& 127) &&& 0x7F) <<< (7 * count) % 2 ^ 64 =
          v * 2 ^ (7 * count) := by
        rw [hbyte, hbyte, Nat.shiftLeft_eq, Nat.mod_eq_of_lt (by omega)]
      have hhi : (v &&& 127) &&& 0x80 = 0 := by
        rw [hbyte]
        have : (0x80 : Nat) = 2 ^ 7 := by norm_num
        rw [this]
        exact and_two_pow_eq_zero_of_lt hvlt
      simp only [hval, hhi, if_pos rfl, if_true]
      rw [or_mul_two_pow_eq_add hres]
    · -- continuation byte
      have hvge : 128 ≤ v := by
        by_contra hlt
        push_neg at hlt
        apply hsmall
        rw [Nat.shiftRight_eq_div_pow]
        exact Nat.div_eq_of_lt (by simpa using hlt)
      have hfpos : 0 < f := by
        by_contra hf0
        push_neg at hf0
        interval_cases f
        simp at hv
        omega
      rw [writeVarUIntGo]
      simp only [hsmall, if_neg hsmall]
      show readVarUIntGo (((v &&& 127) ||| 128) :: (writeVarUIntGo f (v >>> 7) ++ rest))
        count result = _
      rw [readVarUIntGo]
      rw [if_neg (by omega)]
      have hb127 : ((v &&& 127) ||| 128) &&& 0x7F = v % 128 := by
        show ((v &&& 127) ||| 128) &&& 127 = v % 128
        have e1 : (127 : Nat) &&& 127 = 127 := by decide
        have e2 : (128 : Nat) &&& 127 = 0 := by decide
        rw [Nat.and_distrib_right, Nat.and_assoc, e1, e2, Nat.or_zero, h127]
      have hb128 : ((v &&& 127) ||| 128) &&& 0x80 = 128 := by
        show ((v &&& 127) ||| 128) &&& 128 = 128
        have e3 : (127 : Nat) &&& 128 = 0 := by decide
        have e4 : (128 : Nat) &&& 128 = 128 := by decide
        rw [Nat.and_distrib_right, Nat.and_assoc, e3, Nat.and_zero, e4, Nat.zero_or]
      have hP : (0 : Nat) < 2 ^ (7 * count) := Nat.pos_pow_of_pos _ (by norm_num)
      have hmodval : (v % 128) <<< (7 * count) % 2 ^ 64 = (v % 128) * 2 ^ (7 * count) := by
        rw [Nat.shiftLeft_eq]
        apply Nat.mod_eq_of_lt
        have : v % 128 ≤ v := Nat.mod_le _ _
        calc v % 128 * 2 ^ (7 * count) ≤ v * 2 ^ (7 * count) :=
              Nat.mul_le_mul_right _ this
          _ < 2 ^ 64 := by omega
      simp only [hb127, hb128, hmodval]
      rw [if_neg (by norm_num)]
      rw [or_mul_two_pow_eq_add hres]
      -- recursive call
      have hsplit : v = 128 * (v >>> 7) + v % 128 := by
        rw [Nat.shiftRight_eq_div_pow]
        have := Nat.div_add_mod v 128
        simpa [Nat.mul_comm] using this.symm
      have hpow7 : (2 : Nat) ^ (7 * (count + 1)) = 2 ^ (7 * count) * 128 := by
        rw [show 7 * (count + 1) = 7 * count + 7 by ring, pow_add]
        norm_num
      have hcount' : 7 * (count + 1) < 64 := by
        have h1 : (2:Nat) ^ 7 * 2 ^ (7 * count) ≤ v * 2 ^ (7 * count) :=
          Nat.mul_le_mul_right _ (by omega)
        have h2 : (2:Nat) ^ (7 * count + 7) < 2 ^ 64 := by
          rw [pow_add]
          calc (2:Nat) ^ (7 * count) * 2 ^ 7 = 2 ^ 7 * 2 ^ (7 * count) := by ring
            _ ≤ v * 2 ^ (7 * count) := h1
            _ < 2 ^ 64 := by omega
        have := (Nat.pow_lt_pow_iff_right (by norm_num : 1 < 2)).mp h2
        omega
      have hv' : v >>> 7 < 2 ^ (7 * f) := by
        rw [Nat.shiftRight_eq_div_pow]
        have : v < 2 ^ (7 * f) * 2 ^ 7 := by
          rw [← pow_add]
          have : 7 * f + 7 = 7 * (f + 1) := by ring
          rw [this]
          exact hv
        have h128 : (2:Nat) ^ 7 = 128 := by norm_num
        rw [h128] at this
        omega
      have hres' : result + v % 128 * 2 ^ (7 * count) < 2 ^ (7 * (count + 1)) := by
        rw [hpow7]
        have : v % 128 < 128 := Nat.mod_lt _ (by norm_num)
        have : v % 128 * 2 ^ (7 * count) ≤ 127 * 2 ^ (7 * count) :=
          Nat.mul_le_mul_right _ (by omega)
        omega
      have hbound' : v >>> 7 * 2 ^ (7 * (count + 1)) +
          (result + v % 128 * 2 ^ (7 * count)) < 2 ^ 64 := by
        rw [hpow7]
        have : v >>> 7 * (2 ^ (7 * count) * 128) + v % 128 * 2 ^ (7 * count) =
            v * 2 ^ (7 * count) := by
          conv_rhs => rw [hsplit]
          ring
        omega
      rw [ih (v >>> 7) (count + 1) (result + v % 128 * 2 ^ (7 * count)) rest
        hfpos hv' hcount' hres' hbound']
      congr 1
      rw [hpow7]
      conv_rhs => rw [hsplit]
      ring

/-- Claim C4: for every u64 value, VarInt decode of VarInt encode
returns the value (with the rest of the stream untouched), and the four
concrete encodings of the specification hold. -/
theorem varuint_roundtrip :
    (∀ (v : Nat) (rest : List Nat), v < 2 ^ 64 →
      read_variable_sized_unsigned_number
        (write_variable_sized_unsigned_number v ++ rest) = POut.ok v rest) ∧
    write_variable_sized_unsigned_number 0 = [0x00] ∧
    write_variable_sized_unsigned_number 127 = [0x7F] ∧
    write_variable_sized_unsigned_number 128 = [0x80, 0x01] ∧
    write_variable_sized_unsigned_number 16384 = [0x80, 0x80, 0x01] := by
  refine ⟨fun v rest hv => ?_, by decide, by decide, by decide, by decide⟩
  have h := varUIntGo_roundtrip 64 v 0 0 rest (by norm_num)
    (lt_trans hv (by norm_num)) (by norm_num) (by norm_num) (by simpa using hv)
  simpa [read_variable_sized_unsigned_number,
    write_variable_sized_unsigned_number] using h

theorem varuint_roundtrip_witness :
    read_variable_sized_unsigned_number
      (write_variable_sized_unsigned_number 300 ++ [7]) = POut.ok 300 [7] :=
  varuint_roundtrip.1 300 [7] (by norm_num)

/-- Claim C10: the VarInt decoder imposes no cap on continuation bytes
and shifts each byte's payload by `7 * count`; after ten continuation
bytes the next byte is combined with a shift of 70, which overflows the
64-bit accumulator width - the decoder aborts (modelled `panicked`)
instead of returning a parse error, while nine continuation bytes
(shift 63) are still accepted. -/
theorem varuint_shift_overflow :
    (∀ (b : Nat) (bs : List Nat),
      readVarUIntGo (List.replicate 10 0x80 ++ b :: bs) 0 0 = POut.panicked) ∧
    read_variable_sized_unsigned_number (List.replicate 10 0x80 ++ [0x01]) =
      POut.panicked ∧
    read_variable_sized_unsigned_number (List.replicate 9 0x80 ++ [0x01]) =
      POut.ok (2 ^ 63) [] := by
  refine ⟨fun b bs => ?_, by decide, by decide⟩
  rfl

theorem ParseM_bind_apply {α β : Type} (m : ParseM α) (f : α → ParseM β)
    (bs : List Nat) :
    (m >>= f) bs = match m bs with
      | .ok a rest => f a rest
      | .err e => .err e
      | .panicked => .panicked
      | .outOfFuel => .outOfFuel := rfl

theorem ParseM_pure_apply {α : Type} (a : α) (bs : List Nat) :
    (pure a : ParseM α) bs = .ok a bs := rfl

/-- Claim C9: any tag byte whose low six bits are zero ends the command
loop successfully, whatever its two style bits hold, before the style
bits are interpreted. -/
theorem zero_command_index_ends_stream :
    ∀ (header : TinyVgHeader) (b : Nat) (rest : List Nat),
      b &&& 0b00111111 = 0 →
      parse_draw_commands header (b :: rest) = POut.ok [] rest := by
  intro header b rest h
  show parseDrawCommandsGo header (rest.length + 1 + 1) [] (b :: rest) = _
  rw [parseDrawCommandsGo]
  simp only [ParseM_bind_apply, ParseM_pure_apply, read_u8, h,
    CommandType.from_u8, liftPanic]

theorem zero_command_index_ends_stream_witness :
    parse_draw_commands exampleHeader [0xC0, 5, 6] = POut.ok [] [5, 6] :=
  zero_command_index_ends_stream exampleHeader 0xC0 [5, 6] (by decide)

theorem readVarUIntGo_err_invalidHeader :
    ∀ (bs : List Nat) (count result : Nat) (e : TinyVgParseError),
      readVarUIntGo bs count result = POut.err e →
        e = TinyVgParseError.InvalidHeader := by
  intro bs
  induction bs with
  | nil =>
    intro count result e h
    rw [readVarUIntGo] at h
    cases h
    rfl
  | cons b rest ih =>
    intro count result e h
    rw [readVarUIntGo] at h
    by_cases h64 : 64 ≤ 7 * count
    · rw [if_pos h64] at h
      cases h
    · rw [if_neg h64] at h
      by_cases hb : b &&& 0x80 = 0
      · rw [if_pos hb] at h
        cases h
      · rw [if_neg hb] at h
        exact ih _ _ _ h

theorem ParseM_bind_err {α β : Type} {P : TinyVgParseError → Prop}
    {m : ParseM α} {f : α → ParseM β}
    (hm : ∀ bs e, m bs = POut.err e → P e)
    (hf : ∀ a bs e, f a bs = POut.err e → P e) :
    ∀ bs e, (m >>= f) bs = POut.err e → P e := by
  intro bs e
  rw [ParseM_bind_apply]
  cases hmb : m bs with
  | ok a rest =>
    intro h
    exact hf a rest e h
  | err e' =>
    intro h
    injection h with h'
    exact h' ▸ hm bs e' hmb
  | panicked => intro h; cases h
  | outOfFuel => intro h; cases h

theorem ParseM_pure_err {α : Type} {P : TinyVgParseError → Prop} (a : α) :
    ∀ bs e, (pure a : ParseM α) bs = POut.err e → P e := by
  intro bs e h
  rw [ParseM_pure_apply] at h
  cases h

theorem liftPanic_err {α : Type} {P : TinyVgParseError → Prop} (o : Option α) :
    ∀ bs e, liftPanic o bs = POut.err e → P e := by
  intro bs e h
  cases o with
  | some a =>
    rw [show liftPanic (some a) = pure a from rfl] at h
    exact ParseM_pure_err a bs e h
  | none => cases h

theorem perr_err {α : Type} (e' : TinyVgParseError) :
    ∀ bs e, (perr e' : ParseM α) bs = POut.err e → e = e' := by
  intro bs e h
  rw [show (perr e' : ParseM α) bs = POut.err e' from rfl] at h
  injection h with h'
  exact h'.symm

theorem read_u8_err (e' : TinyVgParseError) :
    ∀ bs e, read_u8 e' bs = POut.err e → e = e' := by
  intro bs e h
  cases bs with
  | nil =>
    rw [show read_u8 e' [] = POut.err e' from rfl] at h
    injection h with h'
    exact h'.symm
  | cons b rest => simp [read_u8] at h

theorem read_u16_le_err (e' : TinyVgParseError) :
    ∀ bs e, read_u16_le e' bs = POut.err e → e = e' := by
  intro bs e h
  unfold read_u16_le at h
  exact ParseM_bind_err (read_u8_err e')
    (fun b0 => ParseM_bind_err (read_u8_err e') (fun b1 => ParseM_pure_err _)) bs e h

theorem read_u32_le_err (e' : TinyVgParseError) :
    ∀ bs e, read_u32_le e' bs = POut.err e → e = e' := by
  intro bs e h
  unfold read_u32_le at h
  exact ParseM_bind_err (read_u8_err e')
    (fun b0 => ParseM_bind_err (read_u8_err e')
      (fun b1 => ParseM_bind_err (read_u8_err e')
        (fun b2 => ParseM_bind_err (read_u8_err e')
          (fun b3 => ParseM_pure_err _)))) bs e h

theorem read_i8_err (e' : TinyVgParseError) :
    ∀ bs e, read_i8 e' bs = POut.err e → e = e' := by
  intro bs e h
  unfold read_i8 at h
  exact ParseM_bind_err (read_u8_err e') (fun u => ParseM_pure_err _) bs e h

theorem read_i16_le_err (e' : TinyVgParseError) :
    ∀ bs e, read_i16_le e' bs = POut.err e → e = e' := by
  intro bs e h
  unfold read_i16_le at h
  exact ParseM_bind_err (read_u16_le_err e') (fun u => ParseM_pure_err _) bs e h

theorem read_i32_le_err (e' : TinyVgParseError) :
    ∀ bs e, read_i32_le e' bs = POut.err e → e = e' := by
  intro bs e h
  unfold read_i32_le at h
  exact ParseM_bind_err (read_u32_le_err e') (fun u => ParseM_pure_err _) bs e h

theorem read_size_err (range : CoordinateRange) :
    ∀ bs e, read_size range bs = POut.err e → e = TinyVgParseError.InvalidHeader := by
  cases range
  · exact read_u16_le_err _
  · exact read_u8_err _
  · exact read_u32_le_err _

theorem read_varuint_err :
    ∀ bs e, read_variable_sized_unsigned_number bs = POut.err e →
      e = TinyVgParseError.InvalidHeader :=
  fun bs e h => readVarUIntGo_err_invalidHeader bs 0 0 e h

theorem read_unit_err (scale : Nat) (range : CoordinateRange) :
    ∀ bs e, read_unit scale range bs = POut.err e →
      e = TinyVgParseError.InvalidCommand := by
  unfold read_unit
  cases range
  · exact ParseM_bind_err (read_i16_le_err _) (fun raw => ParseM_pure_err _)
  · exact ParseM_bind_err (read_i8_err _) (fun raw => ParseM_pure_err _)
  · exact ParseM_bind_err (read_i32_le_err _) (fun raw => ParseM_pure_err _)

theorem point_read_err (header : TinyVgHeader) :
    ∀ bs e, Point.read_point header bs = POut.err e →
      e = TinyVgParseError.InvalidCommand := by
  intro bs e h
  unfold Point.read_point at h
  exact ParseM_bind_err (read_unit_err _ _)
    (fun x => ParseM_bind_err (read_unit_err _ _) (fun y => ParseM_pure_err _)) bs e h

theorem rectangle_read_err (header : TinyVgHeader) :
    ∀ bs e, Rectangle.read_rectangle header bs = POut.err e →
      e = TinyVgParseError.InvalidCommand := by
  intro bs e h
  unfold Rectangle.read_rectangle at h
  exact ParseM_bind_err (read_unit_err _ _)
    (fun x => ParseM_bind_err (read_unit_err _ _)
      (fun y => ParseM_bind_err (read_unit_err _ _)
        (fun w => ParseM_bind_err (read_unit_err _ _)
          (fun hh => ParseM_pure_err _)))) bs e h

theorem line_read_err (header : TinyVgHeader) :
    ∀ bs e, Line.read_line header bs = POut.err e →
      e = TinyVgParseError.InvalidCommand := by
  intro bs e h
  unfold Line.read_line at h
  exact ParseM_bind_err (point_read_err header)
    (fun s => ParseM_bind_err (point_read_err header) (fun t => ParseM_pure_err _)) bs e h

theorem flat_read_err :
    ∀ bs e, FlatColored.read_from_cursor bs = POut.err e →
      e = TinyVgParseError.InvalidHeader := by
  intro bs e h
  unfold FlatColored.read_from_cursor at h
  exact ParseM_bind_err read_varuint_err (fun i => ParseM_pure_err _) bs e h

theorem linear_read_err (header : TinyVgHeader) :
    ∀ bs e, LinearGradient.read_from_cursor header bs = POut.err e →
      e = TinyVgParseError.InvalidCommand ∨ e = TinyVgParseError.InvalidHeader := by
  intro bs e h
  unfold LinearGradient.read_from_cursor at h
  exact ParseM_bind_err (fun bs e h => Or.inl (point_read_err header bs e h))
    (fun p0 => ParseM_bind_err (fun bs e h => Or.inl (point_read_err header bs e h))
      (fun p1 => ParseM_bind_err (fun bs e h => Or.inr (read_varuint_err bs e h))
        (fun i0 => ParseM_bind_err (fun bs e h => Or.inr (read_varuint_err bs e h))
          (fun i1 => ParseM_pure_err _)))) bs e h

theorem radial_read_err (header : TinyVgHeader) :
    ∀ bs e, RadialGradient.read_from_cursor header bs = POut.err e →
      e = TinyVgParseError.InvalidCommand ∨ e = TinyVgParseError.InvalidHeader := by
  intro bs e h
  unfold RadialGradient.read_from_cursor at h
  exact ParseM_bind_err (fun bs e h => Or.inl (point_read_err header bs e h))
    (fun p0 => ParseM_bind_err (fun bs e h => Or.inl (point_read_err header bs e h))
      (fun p1 => ParseM_bind_err (fun bs e h => Or.inr (read_varuint_err bs e h))
        (fun i0 => ParseM_bind_err (fun bs e h => Or.inr (read_varuint_err bs e h))
          (fun i1 => ParseM_pure_err _)))) bs e h

theorem style_read_err (header : TinyVgHeader) (st : StyleType) :
    ∀ bs e, Style.read_cursor_using_style_type header st bs = POut.err e →
      e = TinyVgParseError.InvalidCommand ∨ e = TinyVgParseError.InvalidHeader := by
  cases st
  · exact ParseM_bind_err (fun bs e h => Or.inr (flat_read_err bs e h))
      (fun f => ParseM_pure_err _)
  · exact ParseM_bind_err (linear_read_err header) (fun g => ParseM_pure_err _)
  · exact ParseM_bind_err (radial_read_err header) (fun g => ParseM_pure_err _)


theorem ParseM_if_err {α : Type} {P : TinyVgParseError → Prop} {c : Prop}
    [Decidable c] {m1 m2 : ParseM α}
    (h1 : ∀ bs e, m1 bs = POut.err e → P e)
    (h2 : ∀ bs e, m2 bs = POut.err e → P e) :
    ∀ bs e, (if c then m1 else m2) bs = POut.err e → P e := by
  intro bs e h
  split_ifs at h
  · exact h1 bs e h
  · exact h2 bs e h

theorem readPathCommand_err (header : TinyVgHeader) :
    ∀ bs e, readPathCommand header bs = POut.err e →
      e = TinyVgParseError.InvalidCommand := by
  unfold readPathCommand
  refine ParseM_bind_err (read_u8_err _) ?_
  intro tag
  refine ParseM_bind_err (liftPanic_err _) ?_
  intro pc
  cases pc
  · exact ParseM_if_err
      (ParseM_bind_err (read_unit_err _ _) fun u =>
        ParseM_bind_err (ParseM_pure_err _) fun lw =>
          ParseM_bind_err (point_read_err header) fun p => ParseM_pure_err _)
      (ParseM_bind_err (ParseM_pure_err _) fun lw =>
        ParseM_bind_err (point_read_err header) fun p => ParseM_pure_err _)
  · exact ParseM_if_err
      (ParseM_bind_err (read_unit_err _ _) fun u =>
        ParseM_bind_err (ParseM_pure_err _) fun lw =>
          ParseM_bind_err (read_unit_err _ _) fun x => ParseM_pure_err _)
      (ParseM_bind_err (ParseM_pure_err _) fun lw =>
        ParseM_bind_err (read_unit_err _ _) fun x => ParseM_pure_err _)
  · exact ParseM_if_err
      (ParseM_bind_err (read_unit_err _ _) fun u =>
        ParseM_bind_err (ParseM_pure_err _) fun lw =>
          ParseM_bind_err (read_unit_err _ _) fun y => ParseM_pure_err _)
      (ParseM_bind_err (ParseM_pure_err _) fun lw =>
        ParseM_bind_err (read_unit_err _ _) fun y => ParseM_pure_err _)
  · exact ParseM_if_err
      (ParseM_bind_err (read_unit_err _ _) fun u =>
        ParseM_bind_err (ParseM_pure_err _) fun lw =>
          ParseM_bind_err (point_read_err header) fun a =>
            ParseM_bind_err (point_read_err header) fun b =>
              ParseM_bind_err (point_read_err header) fun c => ParseM_pure_err _)
      (ParseM_bind_err (ParseM_pure_err _) fun lw =>
        ParseM_bind_err (point_read_err header) fun a =>
          ParseM_bind_err (point_read_err header) fun b =>
            ParseM_bind_err (point_read_err header) fun c => ParseM_pure_err _)
  · exact ParseM_if_err
      (ParseM_bind_err (read_unit_err _ _) fun u =>
        ParseM_bind_err (ParseM_pure_err _) fun lw =>
          ParseM_bind_err (read_u8_err _) fun fl =>
            ParseM_bind_err (read_unit_err _ _) fun r =>
              ParseM_bind_err (point_read_err header) fun t => ParseM_pure_err _)
      (ParseM_bind_err (ParseM_pure_err _) fun lw =>
        ParseM_bind_err (read_u8_err _) fun fl =>
          ParseM_bind_err (read_unit_err _ _) fun r =>
            ParseM_bind_err (point_read_err header) fun t => ParseM_pure_err _)
  · exact ParseM_if_err
      (ParseM_bind_err (read_unit_err _ _) fun u =>
        ParseM_bind_err (ParseM_pure_err _) fun lw =>
          ParseM_bind_err (read_u8_err _) fun fl =>
            ParseM_bind_err (read_unit_err _ _) fun rx =>
              ParseM_bind_err (read_unit_err _ _) fun ry =>
                ParseM_bind_err (read_unit_err _ _) fun rot =>
                  ParseM_bind_err (point_read_err header) fun t => ParseM_pure_err _)
      (ParseM_bind_err (ParseM_pure_err _) fun lw =>
        ParseM_bind_err (read_u8_err _) fun fl =>
          ParseM_bind_err (read_unit_err _ _) fun rx =>
            ParseM_bind_err (read_unit_err _ _) fun ry =>
              ParseM_bind_err (read_unit_err _ _) fun rot =>
                ParseM_bind_err (point_read_err header) fun t => ParseM_pure_err _)
  · exact ParseM_if_err
      (ParseM_bind_err (read_unit_err _ _) fun u =>
        ParseM_bind_err (ParseM_pure_err _) fun lw => ParseM_pure_err _)
      (ParseM_bind_err (ParseM_pure_err _) fun lw => ParseM_pure_err _)
  · exact ParseM_if_err
      (ParseM_bind_err (read_unit_err _ _) fun u =>
        ParseM_bind_err (ParseM_pure_err _) fun lw =>
          ParseM_bind_err (point_read_err header) fun c =>
            ParseM_bind_err (point_read_err header) fun p => ParseM_pure_err _)
      (ParseM_bind_err (ParseM_pure_err _) fun lw =>
        ParseM_bind_err (point_read_err header) fun c =>
          ParseM_bind_err (point_read_err header) fun p => ParseM_pure_err _)

theorem readPathCommands_err (header : TinyVgHeader) :
    ∀ (n : Nat) (bs : List Nat) (e : TinyVgParseError),
      readPathCommands header n bs = POut.err e →
        e = TinyVgParseError.InvalidCommand := by
  intro n
  induction n with
  | zero => exact ParseM_pure_err _
  | succ k ih =>
    exact ParseM_bind_err (readPathCommand_err header)
      (fun c => ParseM_bind_err ih (fun rest => ParseM_pure_err _))

theorem readSegmentLengths_err :
    ∀ (n : Nat) (bs : List Nat) (e : TinyVgParseError),
      readSegmentLengths n bs = POut.err e →
        e = TinyVgParseError.InvalidHeader := by
  intro n
  induction n with
  | zero => exact ParseM_pure_err _
  | succ k ih =>
    exact ParseM_bind_err read_varuint_err
      (fun len => ParseM_bind_err ih (fun rest => ParseM_pure_err _))

theorem readSegments_err (header : TinyVgHeader) :
    ∀ (ls : List Nat) (bs : List Nat) (e : TinyVgParseError),
      readSegments header ls bs = POut.err e →
        e = TinyVgParseError.InvalidCommand := by
  intro ls
  induction ls with
  | nil => exact ParseM_pure_err _
  | cons c cs ih =>
    exact ParseM_bind_err (point_read_err header)
      (fun start => ParseM_bind_err (readPathCommands_err header c)
        (fun cmds => ParseM_bind_err ih (fun rest => ParseM_pure_err _)))

theorem path_parse_err (header : TinyVgHeader) (segment_count : Nat) :
    ∀ bs e, Path.parse header segment_count bs = POut.err e →
      e = TinyVgParseError.InvalidCommand ∨ e = TinyVgParseError.InvalidHeader := by
  unfold Path.parse
  exact ParseM_bind_err (fun bs e h => Or.inr (readSegmentLengths_err _ bs e h))
    (fun ls => ParseM_bind_err (fun bs e h => Or.inl (readSegments_err header ls bs e h))
      (fun segs => ParseM_pure_err _))

theorem readPoints_err (header : TinyVgHeader) :
    ∀ (n : Nat) (bs : List Nat) (e : TinyVgParseError),
      readPoints header n bs = POut.err e → e = TinyVgParseError.InvalidCommand := by
  intro n
  induction n with
  | zero => exact ParseM_pure_err _
  | succ k ih =>
    exact ParseM_bind_err (point_read_err header)
      (fun p => ParseM_bind_err ih (fun rest => ParseM_pure_err _))

theorem readRectangles_err (header : TinyVgHeader) :
    ∀ (n : Nat) (bs : List Nat) (e : TinyVgParseError),
      readRectangles header n bs = POut.err e → e = TinyVgParseError.InvalidCommand := by
  intro n
  induction n with
  | zero => exact ParseM_pure_err _
  | succ k ih =>
    exact ParseM_bind_err (rectangle_read_err header)
      (fun r => ParseM_bind_err ih (fun rest => ParseM_pure_err _))

theorem readLines_err (header : TinyVgHeader) :
    ∀ (n : Nat) (bs : List Nat) (e : TinyVgParseError),
      readLines header n bs = POut.err e → e = TinyVgParseError.InvalidCommand := by
  intro n
  induction n with
  | zero => exact ParseM_pure_err _
  | succ k ih =>
    exact ParseM_bind_err (line_read_err header)
      (fun l => ParseM_bind_err ih (fun rest => ParseM_pure_err _))

theorem readExact_err (e' : TinyVgParseError) :
    ∀ (n : Nat) (bs : List Nat) (e : TinyVgParseError),
      readExact e' n bs = POut.err e → e = e' := by
  intro n
  induction n with
  | zero => exact ParseM_pure_err _
  | succ k ih =>
    exact ParseM_bind_err (read_u8_err e')
      (fun b => ParseM_bind_err ih (fun rest => ParseM_pure_err _))

theorem readGlyphOffsets_err (header : TinyVgHeader) :
    ∀ (n : Nat) (bs : List Nat) (e : TinyVgParseError),
      readGlyphOffsets header n bs = POut.err e →
        e = TinyVgParseError.InvalidCommand := by
  intro n
  induction n with
  | zero => exact ParseM_pure_err _
  | succ k ih =>
    exact ParseM_bind_err (read_unit_err _ _)
      (fun s => ParseM_bind_err (read_unit_err _ _)
        (fun t => ParseM_bind_err ih (fun rest => ParseM_pure_err _)))

theorem readColorTableEntry_err (header : TinyVgHeader) :
    ∀ bs e, readColorTableEntry header bs = POut.err e →
      e = TinyVgParseError.InvalidColorTable := by
  unfold readColorTableEntry
  cases header.color_encoding
  · exact ParseM_bind_err (read_u8_err _)
      (fun r => ParseM_bind_err (read_u8_err _)
        (fun g => ParseM_bind_err (read_u8_err _)
          (fun b => ParseM_bind_err (read_u8_err _)
            (fun a => ParseM_pure_err _))))
  · exact ParseM_bind_err (read_u16_le_err _) (fun c => ParseM_pure_err _)
  · exact ParseM_bind_err (read_u32_le_err _)
      (fun r => ParseM_bind_err (read_u32_le_err _)
        (fun g => ParseM_bind_err (read_u32_le_err _)
          (fun b => ParseM_bind_err (read_u32_le_err _)
            (fun a => ParseM_pure_err _))))
  · intro bs e h
    cases h

theorem parseColorTableGo_err (header : TinyVgHeader) :
    ∀ (n : Nat) (bs : List Nat) (e : TinyVgParseError),
      parseColorTableGo header n bs = POut.err e →
        e = TinyVgParseError.InvalidColorTable := by
  intro n
  induction n with
  | zero => exact ParseM_pure_err _
  | succ k ih =>
    exact ParseM_bind_err (readColorTableEntry_err header)
      (fun c => ParseM_bind_err ih (fun rest => ParseM_pure_err _))

theorem parse_color_table_err (header : TinyVgHeader) :
    ∀ bs e, parse_color_table header bs = POut.err e →
      e = TinyVgParseError.InvalidColorTable :=
  fun bs e h => parseColorTableGo_err header header.color_count bs e h

theorem header_parse_err :
    ∀ bs e, TinyVgHeader.parse bs = POut.err e →
      e = TinyVgParseError.InvalidHeader := by
  unfold TinyVgHeader.parse
  refine ParseM_bind_err (read_u8_err _) ?_
  intro m0
  refine ParseM_bind_err (read_u8_err _) ?_
  intro m1
  intro bs e h
  split_ifs at h with hc
  · exact perr_err _ bs e h
  · revert h
    exact ParseM_bind_err (read_u8_err _)
      (fun version => ParseM_bind_err (read_u8_err _)
        (fun scc => ParseM_bind_err (liftPanic_err _)
          (fun ce => ParseM_bind_err (liftPanic_err _)
            (fun cr => ParseM_bind_err (read_size_err _)
              (fun w => ParseM_bind_err (read_size_err _)
                (fun hh => ParseM_bind_err read_varuint_err
                  (fun cc => ParseM_pure_err _)))))))
      bs e


theorem parseDrawCommandsGo_err (header : TinyVgHeader) :
    ∀ (fuel : Nat) (acc : List DrawCommand) (bs : List Nat) (e : TinyVgParseError),
      parseDrawCommandsGo header fuel acc bs = POut.err e →
      e = TinyVgParseError.InvalidCommand ∨ e = TinyVgParseError.InvalidHeader := by
  intro fuel
  induction fuel with
  | zero => intro acc bs e h; cases h
  | succ f ih =>
    intro acc
    refine ParseM_bind_err (fun bs e h => Or.inl (read_u8_err _ bs e h)) ?_
    intro b
    refine ParseM_bind_err (liftPanic_err _) ?_
    intro command
    cases command
    case EndOfDocument => exact ParseM_pure_err _
    case FillPolygon =>
      refine ParseM_bind_err (liftPanic_err _) ?_
      intro st
      exact ParseM_bind_err (fun bs e h => Or.inr (read_varuint_err bs e h)) fun n =>
        ParseM_bind_err (style_read_err header st) fun s =>
          ParseM_bind_err (fun bs e h => Or.inl (readPoints_err header _ bs e h)) fun ps =>
            ih _
    case FillRectangles =>
      refine ParseM_bind_err (liftPanic_err _) ?_
      intro st
      exact ParseM_bind_err (fun bs e h => Or.inr (read_varuint_err bs e h)) fun n =>
        ParseM_bind_err (style_read_err header st) fun s =>
          ParseM_bind_err (fun bs e h => Or.inl (readRectangles_err header _ bs e h)) fun rs =>
            ih _
    case FillPath =>
      refine ParseM_bind_err (liftPanic_err _) ?_
      intro st
      exact ParseM_bind_err (fun bs e h => Or.inr (read_varuint_err bs e h)) fun n =>
        ParseM_bind_err (style_read_err header st) fun s =>
          ParseM_bind_err (path_parse_err header _) fun p =>
            ih _
    case DrawLines =>
      refine ParseM_bind_err (liftPanic_err _) ?_
      intro st
      exact ParseM_bind_err (fun bs e h => Or.inr (read_varuint_err bs e h)) fun n =>
        ParseM_bind_err (style_read_err header st) fun s =>
          ParseM_bind_err (fun bs e h => Or.inl (read_unit_err _ _ bs e h)) fun w =>
            ParseM_bind_err (fun bs e h => Or.inl (readLines_err header _ bs e h)) fun ls =>
              ih _
    case DrawLineLoop =>
      refine ParseM_bind_err (liftPanic_err _) ?_
      intro st
      exact ParseM_bind_err (fun bs e h => Or.inr (read_varuint_err bs e h)) fun n =>
        ParseM_bind_err (style_read_err header st) fun s =>
          ParseM_bind_err (fun bs e h => Or.inl (read_unit_err _ _ bs e h)) fun w =>
            ParseM_bind_err (fun bs e h => Or.inl (readPoints_err header _ bs e h)) fun ps =>
              ih _
    case DrawLineStrip =>
      refine ParseM_bind_err (liftPanic_err _) ?_
      intro st
      exact ParseM_bind_err (fun bs e h => Or.inr (read_varuint_err bs e h)) fun n =>
        ParseM_bind_err (style_read_err header st) fun s =>
          ParseM_bind_err (fun bs e h => Or.inl (read_unit_err _ _ bs e h)) fun w =>
            ParseM_bind_err (fun bs e h => Or.inl (readPoints_err header _ bs e h)) fun ps =>
              ih _
    case DrawLinePath =>
      refine ParseM_bind_err (liftPanic_err _) ?_
      intro st
      exact ParseM_bind_err (fun bs e h => Or.inr (read_varuint_err bs e h)) fun n =>
        ParseM_bind_err (style_read_err header st) fun s =>
          ParseM_bind_err (fun bs e h => Or.inl (read_unit_err _ _ bs e h)) fun w =>
            ParseM_bind_err (path_parse_err header _) fun p =>
              ih _
    case OutlineFillPolygon =>
      refine ParseM_bind_err (liftPanic_err _) ?_
      intro st
      exact ParseM_bind_err (fun bs e h => Or.inl (read_u8_err _ bs e h)) fun pb =>
        ParseM_bind_err (style_read_err header st) fun fs =>
          ParseM_bind_err (liftPanic_err _) fun sec =>
            ParseM_bind_err (style_read_err header sec) fun lstyle =>
              ParseM_bind_err (fun bs e h => Or.inl (read_unit_err _ _ bs e h)) fun w =>
                ParseM_bind_err (fun bs e h => Or.inl (readPoints_err header _ bs e h)) fun ps =>
                  ih _
    case OutlineFillRectangles =>
      refine ParseM_bind_err (liftPanic_err _) ?_
      intro st
      exact ParseM_bind_err (fun bs e h => Or.inl (read_u8_err _ bs e h)) fun rb =>
        ParseM_bind_err (style_read_err header st) fun fs =>
          ParseM_bind_err (liftPanic_err _) fun sec =>
            ParseM_bind_err (style_read_err header sec) fun lstyle =>
              ParseM_bind_err (fun bs e h => Or.inl (read_unit_err _ _ bs e h)) fun w =>
                ParseM_bind_err (fun bs e h => Or.inl (readRectangles_err header _ bs e h)) fun rs =>
                  ih _
    case OutlineFillPath =>
      refine ParseM_bind_err (liftPanic_err _) ?_
      intro st
      exact ParseM_bind_err (fun bs e h => Or.inl (read_u8_err _ bs e h)) fun sb =>
        ParseM_bind_err (liftPanic_err _) fun sec =>
          ParseM_bind_err (style_read_err header st) fun fs =>
            ParseM_bind_err (style_read_err header sec) fun lstyle =>
              ParseM_bind_err (fun bs e h => Or.inl (read_unit_err _ _ bs e h)) fun w =>
                ParseM_bind_err (path_parse_err header _) fun p =>
                  ih _
    case TextHint =>
      refine ParseM_bind_err (liftPanic_err _) ?_
      intro st
      exact ParseM_bind_err (fun bs e h => Or.inl (point_read_err header bs e h)) fun c =>
        ParseM_bind_err (fun bs e h => Or.inl (read_unit_err _ _ bs e h)) fun rot =>
          ParseM_bind_err (fun bs e h => Or.inl (read_unit_err _ _ bs e h)) fun ht =>
            ParseM_bind_err (fun bs e h => Or.inr (read_varuint_err bs e h)) fun tl =>
              ParseM_bind_err (fun bs e h => Or.inl (readExact_err _ _ bs e h)) fun buf =>
                ParseM_if_err (fun bs e h => Or.inl (perr_err _ bs e h))
                  (ParseM_bind_err (fun bs e h => Or.inr (read_varuint_err bs e h)) fun gl =>
                    ParseM_bind_err (fun bs e h => Or.inl (readGlyphOffsets_err header _ bs e h)) fun go =>
                      ih _)

theorem parse_draw_commands_err (header : TinyVgHeader) :
    ∀ bs e, parse_draw_commands header bs = POut.err e →
      e = TinyVgParseError.InvalidCommand ∨ e = TinyVgParseError.InvalidHeader :=
  fun bs e h => parseDrawCommandsGo_err header (bs.length + 1) [] bs e h


/-- Claim C7 (amended): a failed decode's typed error identifies the
failing phase with one systematic exception: every header-phase error
is InvalidHeader, every color-table-phase error is InvalidColorTable,
and every command-phase error is InvalidCommand except those raised by
the shared VarInt reader, which hardcodes the header-phase error
InvalidHeader - so, universally, truncation inside a count, color
index, or text-length VarInt read while parsing a command yields
InvalidHeader, while every non-VarInt command read (tag and flag
bytes, units, text bytes, whole path primitives) can only fail with
InvalidCommand; two concrete truncated streams illustrate both
outcomes end to end. -/
theorem error_phase_characterization :
    (∀ (bs : List Nat) (e : TinyVgParseError),
      TinyVgHeader.parse bs = POut.err e → e = TinyVgParseError.InvalidHeader) ∧
    (∀ (header : TinyVgHeader) (bs : List Nat) (e : TinyVgParseError),
      parse_color_table header bs = POut.err e →
        e = TinyVgParseError.InvalidColorTable) ∧
    (∀ (header : TinyVgHeader) (bs : List Nat) (e : TinyVgParseError),
      parse_draw_commands header bs = POut.err e →
        e = TinyVgParseError.InvalidCommand ∨ e = TinyVgParseError.InvalidHeader) ∧
    (∀ (bs : List Nat) (e : TinyVgParseError),
      read_variable_sized_unsigned_number bs = POut.err e →
        e = TinyVgParseError.InvalidHeader) ∧
    (∀ (scale : Nat) (range : CoordinateRange) (bs : List Nat) (e : TinyVgParseError),
      read_unit scale range bs = POut.err e → e = TinyVgParseError.InvalidCommand) ∧
    (∀ (bs : List Nat) (e : TinyVgParseError),
      read_u8 TinyVgParseError.InvalidCommand bs = POut.err e →
        e = TinyVgParseError.InvalidCommand) ∧
    (∀ (n : Nat) (bs : List Nat) (e : TinyVgParseError),
      readExact TinyVgParseError.InvalidCommand n bs = POut.err e →
        e = TinyVgParseError.InvalidCommand) ∧
    (∀ (header : TinyVgHeader) (bs : List Nat) (e : TinyVgParseError),
      readPathCommand header bs = POut.err e → e = TinyVgParseError.InvalidCommand) ∧
    TinyVg.from_bytes
      [0x72, 0x56, 0x01, 0x20, 0x01, 0x00, 0x01, 0x00, 0x00, 0x01] =
      POut.err TinyVgParseError.InvalidHeader ∧
    TinyVg.from_bytes
      [0x72, 0x56, 0x01, 0x20, 0x01, 0x00, 0x01, 0x00, 0x00, 0x01, 0x00, 0x00] =
      POut.err TinyVgParseError.InvalidCommand :=
  ⟨header_parse_err, parse_color_table_err, parse_draw_commands_err,
    read_varuint_err, read_unit_err, read_u8_err _, readExact_err _,
    readPathCommand_err, by decide, by decide⟩

theorem error_phase_characterization_witness :
    TinyVgParseError.InvalidHeader = TinyVgParseError.InvalidCommand ∨
    TinyVgParseError.InvalidHeader = TinyVgParseError.InvalidHeader :=
  error_phase_characterization.2.2.1 exampleHeader [0x01]
    TinyVgParseError.InvalidHeader (by decide)

/-- Claim C7 (counterexample): a stream truncated inside the
point-count VarInt of a FillPolygon command fails with the header-phase
error, not with the command-phase error the claim requires. -/
theorem command_varint_truncation_counterexample :
    TinyVg.from_bytes
      [0x72, 0x56, 0x01, 0x20, 0x01, 0x00, 0x01, 0x00, 0x00, 0x01] =
      POut.err TinyVgParseError.InvalidHeader ∧
    TinyVg.from_bytes
      [0x72, 0x56, 0x01, 0x20, 0x01, 0x00, 0x01, 0x00, 0x00, 0x01] ≠
      POut.err TinyVgParseError.InvalidCommand := ⟨by decide, by decide⟩

/-- Claim C3: decode panics (Rust `unreachable!`) on a tag byte with
command index 12 and on a Custom-encoded color table with one entry,
instead of returning a typed error value. -/
theorem malformed_input_panics :
    TinyVg.from_bytes
      [0x72, 0x56, 0x01, 0x20, 0x01, 0x00, 0x01, 0x00, 0x00, 0x0C] =
      POut.panicked ∧
    TinyVg.from_bytes
      [0x72, 0x56, 0x01, 0x30, 0x01, 0x00, 0x01, 0x00, 0x01] =
      POut.panicked := ⟨by decide, by decide⟩

unseal Rat.mul Rat.add Rat.sub Rat.inv in
/-- Claim C8 (counterexample): a stream with color_count 0 whose
FillPolygon style carries flat color index 5 decodes successfully,
violating the index-below-color-count invariant. -/
theorem decoded_index_out_of_range :
    ∃ (t : TinyVg) (rest : List Nat),
      TinyVg.from_bytes
        [0x72, 0x56, 0x01, 0x20, 0x01, 0x00, 0x01, 0x00, 0x00,
         0x01, 0x00, 0x05, 0x00, 0x00, 0x00, 0x00, 0x00] = POut.ok t rest ∧
      colorIndicesInBounds t = false := by
  exact ⟨⟨exampleHeader, [],
    [DrawCommand.FillPolygon ⟨Style.FlatColor ⟨5⟩, [mkPt 0 0]⟩]⟩, [],
    by decide, by decide⟩

unseal Rat.mul Rat.add Rat.sub Rat.inv in
/-- Claim C8 (amended): decode reads style color indices as raw VarInts
and performs no validation against the header's color count; a
successful decode can return a document whose style index exceeds the
palette size. -/
theorem decode_skips_index_validation :
    ∃ (t : TinyVg) (rest : List Nat),
      TinyVg.from_bytes
        [0x72, 0x56, 0x01, 0x20, 0x01, 0x00, 0x01, 0x00, 0x00,
         0x01, 0x00, 0x07, 0x00, 0x00, 0x00, 0x00, 0x00] = POut.ok t rest ∧
      t.header.color_count = 0 ∧ colorIndicesInBounds t = false := by
  exact ⟨⟨exampleHeader, [],
    [DrawCommand.FillPolygon ⟨Style.FlatColor ⟨7⟩, [mkPt 0 0]⟩]⟩, [],
    by decide, by decide, by decide⟩

set_option maxRecDepth 40000 in
unseal Rat.mul Rat.add Rat.sub Rat.inv in
/-- Claim C1: a document spanning FillPath, DrawLinePath and
OutlineFillPath commands - each path containing every PathPrimitive
kind, with both gradient style variants used - encodes successfully,
but decoding the encoded bytes panics (the decoder's unshifted
secondary-style kind hits `unreachable!` at the OutlineFillPath
command), so decode(encode(doc)) does not return the document. -/
theorem roundtrip_gradient_outline_panics :
    ∃ bs : List Nat, encodeTinyVg fullFamilyDoc = WOut.ok bs ∧
      TinyVg.from_bytes bs = POut.panicked := by
  exact ⟨[114, 86, 1, 32, 1, 0, 1, 0, 0, 74, 128, 0, 0, 0, 0, 1, 0, 1, 0, 0,
    0, 0, 0, 0, 0, 1, 0, 1, 0, 0, 0, 1, 0, 7, 0, 0, 0, 0, 16, 1, 0, 1, 0, 1,
    0, 1, 2, 0, 2, 3, 0, 3, 1, 0, 0, 0, 0, 0, 1, 0, 2, 0, 2, 0, 4, 1, 1, 0,
    3, 0, 1, 0, 5, 2, 2, 0, 1, 0, 0, 0, 4, 0, 1, 0, 6, 7, 1, 0, 2, 0, 0, 0,
    0, 0, 67, 0, 0, 0, 0, 0, 1, 0, 1, 0, 0, 0, 7, 0, 0, 0, 0, 16, 1, 0, 1,
    0, 1, 0, 1, 2, 0, 2, 3, 0, 3, 1, 0, 0, 0, 0, 0, 1, 0, 2, 0, 2, 0, 4, 1,
    1, 0, 3, 0, 1, 0, 5, 2, 2, 0, 1, 0, 0, 0, 4, 0, 1, 0, 6, 7, 1, 0, 2, 0,
    0, 0, 0, 0, 135, 0, 0, 0, 0, 0, 1, 0, 1, 0, 0, 0, 1, 0, 7, 0, 0, 0, 0,
    16, 1, 0, 1, 0, 1, 0, 1, 2, 0, 2, 3, 0, 3, 1, 0, 0, 0, 0, 0, 1, 0, 2, 0,
    2, 0, 4, 1, 1, 0, 3, 0, 1, 0, 5, 2, 2, 0, 1, 0, 0, 0, 4, 0, 1, 0, 6, 7,
    1, 0, 2, 0, 0, 0, 0, 0, 0], by decide, by decide⟩

unseal Rat.mul Rat.add Rat.sub Rat.inv in
/-- Claim C2: the encoder packs the secondary style discriminant into
the top two bits of the extra byte and `segment_count - 1` into the
rest (0x40 = Linear shifted left six, count field 0), but the decoder
masks that byte with 0b11000000 without shifting it right, so decoding
an OutlineFillPath whose secondary byte selects a gradient panics
instead of reading the stroke style. -/
theorem secondary_style_byte_packing_bug :
    (∃ t : List Nat, write_draw_command exampleHeader
        (DrawCommand.OutlineFillPath gradientOutlineData) =
        WOut.ok (0x0A :: ((StyleType.Linear.as_u8 <<< 6) ||| 0) :: t)) ∧
    parse_draw_commands exampleHeader [0x0A, 0x40] = POut.panicked := by
  refine ⟨⟨[0, 0, 0, 0, 0, 1, 0, 1, 0, 0, 0, 1, 0, 0, 0, 0, 0, 0, 0, 1, 0,
    1, 0], by decide⟩, by decide⟩

unseal Rat.mul Rat.add Rat.sub Rat.inv in
/-- Claim C5: unit encode rounds the scaled value to the nearest
integer and fails with InvalidCommand exactly when that integer falls
outside the signed range of the width selected by the coordinate range;
otherwise it writes precisely that integer (no wrap, no saturation);
in particular scale 0, Reduced range, value 200 fails. -/
theorem write_unit_range_check :
    (∀ (scale : Nat) (range : CoordinateRange) (u : Unit),
      (write_unit scale range u = WOut.err TinyVgParseError.InvalidCommand ↔
        (rustRound (u.val * ((1 <<< scale : Nat) : ℚ)) < -2 ^ (unitBits range - 1) ∨
         2 ^ (unitBits range - 1) - 1 < rustRound (u.val * ((1 <<< scale : Nat) : ℚ)))) ∧
      (write_unit scale range u = WOut.err TinyVgParseError.InvalidCommand ∨
        write_unit scale range u = WOut.ok (intLEBytes (unitBits range / 8)
          (rustRound (u.val * ((1 <<< scale : Nat) : ℚ)))))) ∧
    write_unit 0 CoordinateRange.Reduced ⟨200⟩ =
      WOut.err TinyVgParseError.InvalidCommand := by
  refine ⟨fun scale range u => ?_, by decide⟩
  cases range <;>
    · simp only [write_unit, unitBits]
      norm_num
      refine ⟨⟨fun h => ?_,
        fun h hlo hhi => False.elim (by rcases h with h1 | h1 <;> omega)⟩, ?_⟩
      · by_contra hc
        push_neg at hc
        exact WOut.noConfusion (h (by omega) (by omega))
      · refine or_iff_not_imp_right.mpr fun hr hlo hhi => ?_
        push_neg at hr
        exact False.elim (by rcases hr.1 with h1 | h1 <;> omega)

unseal Rat.mul Rat.add Rat.sub Rat.inv in
theorem write_unit_range_check_witness :
    write_unit 0 CoordinateRange.Reduced ⟨200⟩ =
      WOut.err TinyVgParseError.InvalidCommand :=
  write_unit_range_check.2

theorem wappend_ok_iff {l : List Nat} {w : WOut} {out : List Nat} :
    wappend (WOut.ok l) w = WOut.ok out ↔ ∃ t, w = WOut.ok t ∧ out = l ++ t := by
  cases w <;> simp [wappend, eq_comm]

/-- Claim C6 (counterexample): encoding a document whose only command
is a FillPolygon succeeds yet writes no bytes, so that command is not
introduced by any tag byte in the output. -/
theorem write_drops_fill_polygon :
    write_draw_commands exampleHeader
      [DrawCommand.FillPolygon ⟨Style.FlatColor ⟨0⟩, [mkPt 0 0]⟩] =
      WOut.ok [] := by decide

/-- Claim C6 (amended): a successful encode writes, in the model's
order, only the three implemented command kinds - FillPath,
DrawLinePath, OutlineFillPath - each introduced by its combined tag
byte (plus the secondary style/count byte for OutlineFillPath),
silently writes nothing for the other eight kinds, and `write_end`
emits the 0x00 terminator exactly once after the command stream. -/
theorem write_draw_commands_structure :
    (∀ h d, write_draw_command h (DrawCommand.FillPolygon d) = WOut.ok []) ∧
    (∀ h d, write_draw_command h (DrawCommand.FillRectangles d) = WOut.ok []) ∧
    (∀ h d, write_draw_command h (DrawCommand.DrawLines d) = WOut.ok []) ∧
    (∀ h d, write_draw_command h (DrawCommand.DrawLineLoop d) = WOut.ok []) ∧
    (∀ h d, write_draw_command h (DrawCommand.DrawLineStrip d) = WOut.ok []) ∧
    (∀ h d, write_draw_command h (DrawCommand.OutlineFillPolygon d) = WOut.ok []) ∧
    (∀ h d, write_draw_command h (DrawCommand.OutlineFillRectangles d) = WOut.ok []) ∧
    (∀ h d, write_draw_command h (DrawCommand.TextHint d) = WOut.ok []) ∧
    (∀ h c rest, write_draw_commands h (c :: rest) =
      wappend (write_draw_command h c) (write_draw_commands h rest)) ∧
    (∀ h d out, write_draw_command h (DrawCommand.FillPath d) = WOut.ok out →
      ∃ t, out = (((StyleType.from_style d.style).as_u8 <<< 6) ||| 3) :: t) ∧
    (∀ h d out, write_draw_command h (DrawCommand.DrawLinePath d) = WOut.ok out →
      ∃ t, out = (((StyleType.from_style d.style).as_u8 <<< 6) ||| 7) :: t) ∧
    (∀ h d out, write_draw_command h (DrawCommand.OutlineFillPath d) = WOut.ok out →
      ∃ t, out = (((StyleType.from_style d.fill_style).as_u8 <<< 6) ||| 10) ::
        (((StyleType.from_style d.line_style).as_u8 <<< 6) |||
          ((d.path.segments.length - 1) % 256)) :: t) ∧
    write_end = WOut.ok [0] := by
  refine ⟨fun h d => rfl, fun h d => rfl, fun h d => rfl, fun h d => rfl,
    fun h d => rfl, fun h d => rfl, fun h d => rfl, fun h d => rfl,
    fun h c rest => rfl, ?_, ?_, ?_, rfl⟩
  · intro h d out hok
    simp only [write_draw_command, write_command_and_primary_style,
      CommandType.as_u8, StyleType.as_u8] at hok
    norm_num at hok
    obtain ⟨t1, _, ht1⟩ := wappend_ok_iff.mp hok
    exact ⟨t1, by simpa using ht1⟩
  · intro h d out hok
    simp only [write_draw_command, write_command_and_primary_style,
      CommandType.as_u8, StyleType.as_u8] at hok
    norm_num at hok
    obtain ⟨t1, _, ht1⟩ := wappend_ok_iff.mp hok
    exact ⟨t1, by simpa using ht1⟩
  · intro h d out hok
    simp only [write_draw_command, write_command_and_primary_style,
      CommandType.as_u8, StyleType.as_u8] at hok
    norm_num at hok
    by_cases hlen : d.path.segments = []
    · rw [if_pos hlen] at hok
      simp [wappend] at hok
    · rw [if_neg hlen] at hok
      obtain ⟨t1, hw1, ht1⟩ := wappend_ok_iff.mp hok
      obtain ⟨t2, _, ht2⟩ := wappend_ok_iff.mp hw1
      exact ⟨t2, by simp [ht1, ht2, StyleType.as_u8, (by decide : (10 : Nat) &&& 63 = 10)]⟩

unseal Rat.mul Rat.add Rat.sub Rat.inv in
theorem write_draw_commands_structure_witness :
    ∃ t, [10, 64, 0, 0, 0, 0, 0, 1, 0, 1, 0, 0, 0, 1, 0, 0, 0, 0, 0,
        0, 0, 1, 0, 1, 0] =
      (((StyleType.from_style gradientOutlineData.fill_style).as_u8 <<< 6) ||| 10) ::
      (((StyleType.from_style gradientOutlineData.line_style).as_u8 <<< 6) |||
        ((gradientOutlineData.path.segments.length - 1) % 256)) :: t :=
  write_draw_commands_structure.2.2.2.2.2.2.2.2.2.2.2.1 exampleHeader
    gradientOutlineData _ (by decide)

end TVG
